import Mathlib

/-!
Shallow embedding of the zkybank core (Python) in Lean 4.

The domain layer (`Money`, `AccountNumber`, `Account`, `LedgerEntry`), the
application use cases (`CreateAccountUseCase`, `WithdrawUseCase`,
`TransferUseCase`) and the SQLAlchemy outbound adapter (`unit_of_work.py`,
`account_repository.py`) are translated here as executable Lean functions.
Python exceptions become an explicit error type threaded through `Except`;
mutation of in-memory aggregates becomes functional update; the durable
store mutated through the unit-of-work boundary becomes explicit state
passing, where a transactional attempt publishes its session state at
commit and discards it when an error unwinds out of the boundary.
-/

namespace Zkybank

/-! ### Error taxonomy

One constructor per Python exception class that the embedded code can raise
or observe: the domain errors of `domain/errors.py`, the application errors
of `application/errors.py`, and the storage-level exception kinds of
SQLAlchemy (`StaleDataError`, `OperationalError`) that
`adapters/outbound/persistence/sqlalchemy/unit_of_work.py` inspects. -/
inductive ZkyError where
  | invalidMoney (msg : String)
  | invalidAccountNumber (msg : String)
  | insufficientFunds (msg : String)
  | sameAccountTransfer (msg : String)
  | invalidTransactionAmount (msg : String)
  | accountNotFound (msg : String)
  | accountAlreadyExists (msg : String)
  | concurrencyConflict (msg : String)
  | staleData (msg : String)
  | operationalError (msg : String)
  | runtimeError (msg : String)
deriving DecidableEq, Repr

/-- Discriminates the one error kind that the retry loops in
`withdraw.py` and `transfer.py` catch (`except ConcurrencyConflictError`). -/
def ZkyError.isConcurrencyConflict : ZkyError → Bool
  | .concurrencyConflict _ => true
  | _ => false

instance {e a : Type} [DecidableEq e] [DecidableEq a] : DecidableEq (Except e a) := fun x y =>
  match x, y with
  | .ok v, .ok u => if h : v = u then .isTrue (by rw [h]) else .isFalse (by simp [h])
  | .error v, .error u => if h : v = u then .isTrue (by rw [h]) else .isFalse (by simp [h])
  | .ok _, .error _ => .isFalse (by simp)
  | .error _, .ok _ => .isFalse (by simp)

/-! ### Money (`domain/value_objects/money.py`) -/

structure Money where
  amount_cents : Int
  currency : String
deriving DecidableEq, Repr

/-- `Money.__post_init__`: dataclass construction with validation.  The
Python `isinstance(self.amount_cents, int)` guard is unrepresentable here
because the embedding types the amount as an integer; the remaining checks
are translated in source order.  A falsy Python string is exactly the
empty string, so `not self.currency` becomes `currency = ""`. -/
def Money.make (amount_cents : Int) (currency : String) : Except ZkyError Money :=
  if amount_cents < 0 then
    .error (.invalidMoney "Money amount cannot be a bellow zero")
  else if currency = "" then
    .error (.invalidMoney "Currency must be a non-empty string")
  else
    .ok ⟨amount_cents, currency⟩

/-- `Money.zero`. -/
def Money.zero (currency : String) : Except ZkyError Money :=
  Money.make 0 currency

/-- `Money.is_zero`. -/
def Money.is_zero (m : Money) : Bool :=
  m.amount_cents = 0

/-- `Money.ensure_same_currency`. -/
def Money.ensure_same_currency (m other : Money) : Except ZkyError Unit :=
  if m.currency ≠ other.currency then
    .error (.invalidMoney "Money currency mismatch")
  else
    .ok ()

/-- `Money.__add__`. -/
def Money.add (m other : Money) : Except ZkyError Money :=
  match m.ensure_same_currency other with
  | .error e => .error e
  | .ok _ => .ok ⟨m.amount_cents + other.amount_cents, m.currency⟩

/-- `Money.__sub__`. -/
def Money.sub (m other : Money) : Except ZkyError Money :=
  match m.ensure_same_currency other with
  | .error e => .error e
  | .ok _ =>
    if other.amount_cents > m.amount_cents then
      .error (.invalidMoney "Resulting Money amount cannot be negative")
    else
      .ok ⟨m.amount_cents - other.amount_cents, m.currency⟩

/-- `Money.__lt__`. -/
def Money.lt (m other : Money) : Except ZkyError Bool :=
  match m.ensure_same_currency other with
  | .error e => .error e
  | .ok _ => .ok (decide (m.amount_cents < other.amount_cents))

/-- `Money.__le__`. -/
def Money.le (m other : Money) : Except ZkyError Bool :=
  match m.ensure_same_currency other with
  | .error e => .error e
  | .ok _ => .ok (decide (m.amount_cents ≤ other.amount_cents))

/-- `Money.__gt__`. -/
def Money.gt (m other : Money) : Except ZkyError Bool :=
  match m.ensure_same_currency other with
  | .error e => .error e
  | .ok _ => .ok (decide (m.amount_cents > other.amount_cents))

/-- `Money.__ge__`. -/
def Money.ge (m other : Money) : Except ZkyError Bool :=
  match m.ensure_same_currency other with
  | .error e => .error e
  | .ok _ => .ok (decide (m.amount_cents ≥ other.amount_cents))

/-! ### AccountNumber (`domain/value_objects/account_number.py`)

The embedding works over strings of Unicode scalar values.  The
character-class predicates of CPython are modelled as follows.
`pyIsSpace` covers CPython whitespace completely on the ASCII range:
`str.isspace()` (and hence `str.strip()`) is true there for exactly
U+0009 to U+000D, U+001C to U+001F and U+0020; the non-ASCII whitespace
codepoints (U+0085, U+00A0 and the Unicode space block) are outside the
modelled subset.  `pyIsDigitChar` covers `str.isdigit()`'s acceptance of
every character with Unicode property Numeric_Type Digit or Decimal by a
table holding the ASCII decimal digits, the Latin-1 superscripts
one/two/three and the Arabic-Indic decimal digits U+0660 to U+0669; it
is complete on the ASCII range (where exactly '0' to '9' qualify) and
covers a documented sample of the non-ASCII digit codepoints. -/

def pyIsSpace (c : Char) : Bool :=
  c = ' ' || c = '\t' || c = '\n' || c = '\r' || c = '\x0b' || c = '\x0c' ||
  c = '\x1c' || c = '\x1d' || c = '\x1e' || c = '\x1f'

/-- `str.strip()` with no arguments: remove leading and trailing whitespace. -/
def pyStrip (s : String) : String :=
  ⟨((s.data.dropWhile pyIsSpace).reverse.dropWhile pyIsSpace).reverse⟩

/-- One character of `str.isdigit()`: the ASCII digits, plus the modelled
non-ASCII digit codepoints (superscript one/two/three and the
Arabic-Indic digits). -/
def pyIsDigitChar (c : Char) : Bool :=
  ('0' ≤ c && c ≤ '9') ||
  c = '\u00b9' || c = '\u00b2' || c = '\u00b3' ||
  (0x660 ≤ c.toNat && c.toNat ≤ 0x669)

/-- `str.isdigit()`: true when the string is non-empty and every character
is a digit. -/
def pyIsDigit (s : String) : Bool :=
  !s.data.isEmpty && s.data.all pyIsDigitChar

/-- Python `str.__lt__` on the underlying character lists: lexicographic
comparison by code point. -/
def pyStrLtChars : List Char → List Char → Bool
  | [], [] => false
  | [], _ :: _ => true
  | _ :: _, [] => false
  | a :: as, b :: bs =>
    if a < b then true
    else if b < a then false
    else pyStrLtChars as bs

/-- Python `a < b` on strings. -/
def pyStrLt (a b : String) : Bool :=
  pyStrLtChars a.data b.data

structure AccountNumber where
  value : String
deriving DecidableEq, Repr

/-- `AccountNumber.__post_init__`: strip (the `normalized_value` binding of
the source is inlined), check all-digits, check length 6–12, and store the
normalized value. -/
def AccountNumber.make (value : String) : Except ZkyError AccountNumber :=
  if !pyIsDigit (pyStrip value) then
    .error (.invalidAccountNumber "AccountNumber must contain only digits")
  else if (pyStrip value).length < 6 || (pyStrip value).length > 12 then
    .error (.invalidAccountNumber "AccountNumber must be between 6 and 12 digits long")
  else
    .ok ⟨pyStrip value⟩

/-! ### Account (`domain/entities/account.py`)

`AccountId` generation (Python `uuid4`) is modelled by a supply of fresh
natural numbers threaded through the use cases, so an account identity is
a `Nat` here.  Python mutates the aggregate in place; the embedding
returns the updated aggregate. -/

structure Account where
  account_id : Nat
  account_number : AccountNumber
  balance : Money
deriving DecidableEq, Repr

/-- `Account.deposit`. -/
def Account.deposit (a : Account) (amount : Money) : Except ZkyError Account :=
  if amount.is_zero then
    .error (.invalidMoney "Deposit amount must be greater than zero")
  else
    match a.balance.add amount with
    | .error e => .error e
    | .ok b => .ok { a with balance := b }

/-- `Account.withdraw`: the zero check, then `amount > self.balance`
(which itself checks currencies), then `self.balance - amount`. -/
def Account.withdraw (a : Account) (amount : Money) : Except ZkyError Account :=
  if amount.is_zero then
    .error (.invalidMoney "Withdrawal amount must be greater than zero")
  else
    match amount.gt a.balance with
    | .error e => .error e
    | .ok true => .error (.insufficientFunds "Insufficient funds for withdrawal")
    | .ok false =>
      match a.balance.sub amount with
      | .error e => .error e
      | .ok b => .ok { a with balance := b }

/-! ### LedgerEntry (`domain/entities/ledger_entry.py`) -/

inductive LedgerEntryType where
  | DEPOSIT
  | WITHDRAWAL
  | TRANSFER_IN
  | TRANSFER_OUT
deriving DecidableEq, Repr

structure LedgerEntry where
  entry_id : Nat
  account_id : Nat
  entry_type : LedgerEntryType
  amount : Money
  correlation_id : Option Nat
  counterparty_account_number : Option AccountNumber
  occurred_at : Nat
deriving DecidableEq, Repr

/-- `LedgerEntry.create`: builds the immutable entry with no validation of
the amount.  The fresh `entry_id` (Python `uuid4()`) and the timestamp
(Python `datetime.now`) are supplied by the caller from the explicit
id supply and clock of the state model. -/
def LedgerEntry.create (entry_id : Nat) (account_id : Nat)
    (entry_type : LedgerEntryType) (amount : Money)
    (correlation_id : Option Nat) (counterparty_account_number : Option AccountNumber)
    (occurred_at : Nat) : LedgerEntry :=
  ⟨entry_id, account_id, entry_type, amount, correlation_id,
    counterparty_account_number, occurred_at⟩

/-! ### Durable store and unit-of-work state model

The durable state behind the repository ports is a map from (unique)
account number to account plus the append-only ledger.  A transactional
attempt works on a session initialized from the committed store
(`SqlAlchemyUnitOfWork.__enter__` opens a fresh session per attempt);
`commit` publishes the session as the new committed store, and an error
unwinding out of the `with` block discards the session
(`SqlAlchemyUnitOfWork.__exit__` rolls back), leaving the committed store
untouched.

`World` also carries the non-transactional parts of a run: the fresh-uuid
supply (`uuid4`), a fixed clock reading, the injected-conflict countdown of
`tests/unit/application/fakes.py` (`set_for_update_failures`, the only
conflict source expressible at the port level), and a trace recording the
account numbers requested by reads-with-locking-intent in call order. -/

structure Store where
  accounts : String → Option Account
  ledger : List LedgerEntry

/-- `AccountRepository.get_by_number`: plain read keyed by the unique
account number. -/
def Store.get_by_number (s : Store) (n : AccountNumber) : Option Account :=
  s.accounts n.value

/-- `AccountRepository.save`: upsert under the account's number. -/
def Store.save (s : Store) (a : Account) : Store :=
  { s with accounts := fun k => if k = a.account_number.value then some a else s.accounts k }

/-- `LedgerRepository.save`: append-only. -/
def Store.ledger_save (s : Store) (e : LedgerEntry) : Store :=
  { s with ledger := s.ledger ++ [e] }

structure World where
  store : Store
  conflicts : Nat
  nextId : Nat
  now : Nat
  trace : List String

/-- `uuid4()`: draw a fresh identifier from the supply. -/
def World.freshId (w : World) : Nat × World :=
  (w.nextId, { w with nextId := w.nextId + 1 })

/-- `AccountRepository.get_by_number_for_update` as seen through the port:
record the locking-intent read in the trace, fail with
`ConcurrencyConflictError` while the injected-conflict countdown of the
test fake is positive, and otherwise read the session state. -/
def World.get_by_number_for_update (w : World) (session : Store) (n : AccountNumber) :
    World × Except ZkyError (Option Account) :=
  let w1 := { w with trace := w.trace ++ [n.value] }
  match w1.conflicts with
  | 0 => (w1, .ok (session.accounts n.value))
  | k + 1 =>
    ({ w1 with conflicts := k }, .error (.concurrencyConflict "Simulated concurrency conflict"))

/-! ### Commands and results (`application/dto/commands.py`, `results.py`) -/

structure CreateAccountCommand where
  account_number : String
  initial_balance_cents : Int
  currency : String
deriving DecidableEq, Repr

structure WithdrawCommand where
  account_number : String
  amount_cents : Int
  currency : String
deriving DecidableEq, Repr

structure TransferCommand where
  from_account_number : String
  to_account_number : String
  amount_cents : Int
  currency : String
deriving DecidableEq, Repr

structure AccountCreatedResult where
  account_id : Nat
  account_number : String
  balance_cents : Int
  currency : String
deriving DecidableEq, Repr

structure TransactionResult where
  account_number : String
  balance_cents : Int
  currency : String
deriving DecidableEq, Repr

structure TransferResult where
  correlation_id : Nat
  from_account_number : String
  to_account_number : String
  from_balance_cents : Int
  to_balance_cents : Int
  currency : String
deriving DecidableEq, Repr

/-! ### WithdrawUseCase (`application/use_cases/withdraw.py`) -/

namespace WithdrawUseCase

/-- One iteration of the `for attempt in range(3)` body: the whole
load-for-update → `withdraw` → record → save → commit sequence inside one
`with self._uow as uow` boundary.  On any error the session is discarded
(the committed store of the returned world is unchanged); the commit at
the end of the block publishes the session. -/
def single_attempt (w : World) (account_number : AccountNumber) (amount : Money) :
    World × Except ZkyError Account :=
  let session := w.store
  match w.get_by_number_for_update session account_number with
  | (w1, .error e) => (w1, .error e)
  | (w1, .ok none) =>
    (w1, .error (.accountNotFound
      ("Account with number " ++ account_number.value ++ " not found.")))
  | (w1, .ok (some account)) =>
    match account.withdraw amount with
    | .error e => (w1, .error e)
    | .ok account1 =>
      let (eid, w2) := w1.freshId
      let entry := LedgerEntry.create eid account1.account_id .WITHDRAWAL amount none none w2.now
      let session1 := (session.ledger_save entry).save account1
      ({ w2 with store := session1 }, .ok account1)

/-- The `for attempt in range(3)` loop: run an attempt, return its success,
retry (only) on `ConcurrencyConflictError`, propagate any other error, and
raise `ConcurrencyConflictError` once the attempts are exhausted. -/
def execute_loop (account_number : AccountNumber) (amount : Money) :
    Nat → World → World × Except ZkyError Account
  | 0, w => (w, .error (.concurrencyConflict "Withdraw failed after retries"))
  | n + 1, w =>
    match single_attempt w account_number amount with
    | (w1, .ok a) => (w1, .ok a)
    | (w1, .error e) =>
      if e.isConcurrencyConflict then execute_loop account_number amount n w1
      else (w1, .error e)

/-- `WithdrawUseCase.execute`: validate the inputs once, then run the
bounded retry loop with 3 attempts. -/
def execute (w : World) (command : WithdrawCommand) :
    World × Except ZkyError TransactionResult :=
  match AccountNumber.make command.account_number with
  | .error e => (w, .error e)
  | .ok account_number =>
    match Money.make command.amount_cents command.currency with
    | .error e => (w, .error e)
    | .ok amount =>
      match execute_loop account_number amount 3 w with
      | (w1, .error e) => (w1, .error e)
      | (w1, .ok account) =>
        (w1, .ok ⟨account.account_number.value, account.balance.amount_cents,
          account.balance.currency⟩)

end WithdrawUseCase

/-! ### TransferUseCase (`application/use_cases/transfer.py`) -/

namespace TransferUseCase

/-- `TransferUseCase._load_accounts_with_stable_locks`: fetch both accounts
with locking intent in ascending `account_number` order (the order produced
by `sorted([source, destination], key=value)`), then check presence. -/
def load_accounts_with_stable_locks (w : World) (session : Store)
    (source_number destination_number : AccountNumber) :
    World × Except ZkyError (Account × Account) :=
  let lower_number :=
    if pyStrLt destination_number.value source_number.value then destination_number
    else source_number
  let higher_number :=
    if pyStrLt destination_number.value source_number.value then source_number
    else destination_number
  match w.get_by_number_for_update session lower_number with
  | (w1, .error e) => (w1, .error e)
  | (w1, .ok lowerOpt) =>
    match w1.get_by_number_for_update session higher_number with
    | (w2, .error e) => (w2, .error e)
    | (w2, .ok higherOpt) =>
      match lowerOpt, higherOpt with
      | some lower_account, some higher_account => (w2, .ok (lower_account, higher_account))
      | _, _ => (w2, .error (.accountNotFound "One or both accounts not found."))

/-- `TransferUseCase._map_transfer_direction`. -/
def map_transfer_direction (locked_a locked_b : Account) (source_number : AccountNumber) :
    Account × Account :=
  if locked_a.account_number.value = source_number.value then (locked_a, locked_b)
  else (locked_b, locked_a)

/-- `TransferUseCase._execute_single_attempt`: one transfer attempt within
a transactional boundary, from stable-order locking to commit. -/
def single_attempt (w : World) (source_number destination_number : AccountNumber)
    (amount : Money) (correlation_id : Nat) :
    World × Except ZkyError (Account × Account) :=
  let session := w.store
  match load_accounts_with_stable_locks w session source_number destination_number with
  | (w1, .error e) => (w1, .error e)
  | (w1, .ok (locked_a, locked_b)) =>
    let (source_account, destination_account) :=
      map_transfer_direction locked_a locked_b source_number
    match source_account.withdraw amount with
    | .error e => (w1, .error e)
    | .ok source_account1 =>
      match destination_account.deposit amount with
      | .error e => (w1, .error e)
      | .ok destination_account1 =>
        let (id1, w2) := w1.freshId
        let outEntry := LedgerEntry.create id1 source_account1.account_id .TRANSFER_OUT
          amount (some correlation_id) (some destination_account1.account_number) w2.now
        let (id2, w3) := w2.freshId
        let inEntry := LedgerEntry.create id2 destination_account1.account_id .TRANSFER_IN
          amount (some correlation_id) (some source_account1.account_number) w3.now
        let session1 := ((session.ledger_save outEntry).ledger_save inEntry).save source_account1
        let session2 := session1.save destination_account1
        ({ w3 with store := session2 }, .ok (source_account1, destination_account1))

/-- The `for attempt in range(3)` loop of `TransferUseCase.execute`. -/
def execute_loop (source_number destination_number : AccountNumber)
    (amount : Money) (correlation_id : Nat) :
    Nat → World → World × Except ZkyError (Account × Account)
  | 0, w => (w, .error (.concurrencyConflict "Transfer failed after retries"))
  | n + 1, w =>
    match single_attempt w source_number destination_number amount correlation_id with
    | (w1, .ok r) => (w1, .ok r)
    | (w1, .error e) =>
      if e.isConcurrencyConflict then
        execute_loop source_number destination_number amount correlation_id n w1
      else (w1, .error e)

/-- `TransferUseCase.execute`: validate both numbers, reject same-account
transfers, build the amount, generate the correlation id once, then run the
bounded retry loop with 3 attempts. -/
def execute (w : World) (command : TransferCommand) :
    World × Except ZkyError TransferResult :=
  match AccountNumber.make command.from_account_number with
  | .error e => (w, .error e)
  | .ok source_number =>
    match AccountNumber.make command.to_account_number with
    | .error e => (w, .error e)
    | .ok destination_number =>
      if source_number.value = destination_number.value then
        (w, .error (.sameAccountTransfer "Cannot transfer to the same account."))
      else
        match Money.make command.amount_cents command.currency with
        | .error e => (w, .error e)
        | .ok amount =>
          let (correlation_id, w1) := w.freshId
          match execute_loop source_number destination_number amount correlation_id 3 w1 with
          | (w2, .error e) => (w2, .error e)
          | (w2, .ok (source_account, destination_account)) =>
            (w2, .ok ⟨correlation_id, source_account.account_number.value,
              destination_account.account_number.value,
              source_account.balance.amount_cents,
              destination_account.balance.amount_cents, amount.currency⟩)

end TransferUseCase

/-! ### CreateAccountUseCase (`application/use_cases/create_account.py`) -/

namespace CreateAccountUseCase

/-- `CreateAccountUseCase.execute`: single attempt, no retry.  Existence is
checked with a plain (non-locking) read; `Account.open` draws a fresh
identity and a zero balance; a non-zero initial deposit is applied and
recorded as one DEPOSIT entry; then save and commit. -/
def execute (w : World) (command : CreateAccountCommand) :
    World × Except ZkyError AccountCreatedResult :=
  match AccountNumber.make command.account_number with
  | .error e => (w, .error e)
  | .ok account_number =>
    match Money.make command.initial_balance_cents command.currency with
    | .error e => (w, .error e)
    | .ok initial_deposit_amount =>
      let session := w.store
      match session.get_by_number account_number with
      | some _ =>
        (w, .error (.accountAlreadyExists
          ("Account with number " ++ account_number.value ++ " already exists.")))
      | none =>
        let (aid, w1) := w.freshId
        match Money.zero command.currency with
        | .error e => (w1, .error e)
        | .ok zeroBalance =>
          let account : Account := ⟨aid, account_number, zeroBalance⟩
          if initial_deposit_amount.is_zero then
            let session1 := session.save account
            ({ w1 with store := session1 },
              .ok ⟨account.account_id, account.account_number.value,
                account.balance.amount_cents, account.balance.currency⟩)
          else
            match account.deposit initial_deposit_amount with
            | .error e => (w1, .error e)
            | .ok account1 =>
              let (eid, w2) := w1.freshId
              let entry := LedgerEntry.create eid account1.account_id .DEPOSIT
                initial_deposit_amount none none w2.now
              let session1 := (session.ledger_save entry).save account1
              ({ w2 with store := session1 },
                .ok ⟨account1.account_id, account1.account_number.value,
                  account1.balance.amount_cents, account1.balance.currency⟩)

end CreateAccountUseCase

/-! ### SQLAlchemy outbound adapter
(`adapters/outbound/persistence/sqlalchemy/models.py`,
`repositories/account_repository.py`, `unit_of_work.py`)

The persisted account row (`AccountModel`) carries the optimistic
concurrency version column (`version`, configured as the mapper's
`version_id_col`).  Database outcomes (a row, no row, or a raised storage
exception) are inputs of the embedded adapter functions. -/

structure AccountRow where
  account_id : Nat
  account_number : String
  balance_cents : Int
  currency : String
  version : Nat
deriving DecidableEq, Repr

/-- `SqlAlchemyAccountRepository._to_domain`: rebuild the domain aggregate
from a row; the value-object constructors re-validate. -/
def AccountRow.to_domain (r : AccountRow) : Except ZkyError Account :=
  match AccountNumber.make r.account_number with
  | .error e => .error e
  | .ok n =>
    match Money.make r.balance_cents r.currency with
    | .error e => .error e
    | .ok m => .ok ⟨r.account_id, n, m⟩

/-- Outcome of `session.execute(stmt).scalar_one_or_none()`: a matching
row, no matching row, or a storage exception raised during execution
(e.g. a lock wait timeout surfacing as `OperationalError`). -/
inductive DbReadOutcome where
  | found (r : AccountRow)
  | missing
  | raises (e : ZkyError)
deriving DecidableEq, Repr

namespace SqlAlchemyAccountRepository

/-- `SqlAlchemyAccountRepository.get_by_number_for_update`: build the
select (adding `FOR UPDATE` on non-sqlite dialects), execute it, and map
the row.  The source wraps the execution in no exception handler, so a
storage exception raised by the locking read propagates unchanged. -/
def get_by_number_for_update (outcome : DbReadOutcome) : Except ZkyError (Option Account) :=
  match outcome with
  | .found r =>
    match r.to_domain with
    | .error e => .error e
    | .ok a => .ok (some a)
  | .missing => .ok none
  | .raises e => .error e

end SqlAlchemyAccountRepository

/-! Helpers for the substring tests of `SqlAlchemyUnitOfWork.commit`
(`"database is locked" in msg`, with `msg` lowercased). -/

/-- Whether the second list begins with the first. -/
def leadsWith : List Char → List Char → Bool
  | [], _ => true
  | _ :: _, [] => false
  | p :: ps, h :: hs => p = h && leadsWith ps hs

/-- Whether the first list contains the second as a contiguous segment. -/
def hasSub : List Char → List Char → Bool
  | hay, pat =>
    match hay with
    | [] => pat.isEmpty
    | _ :: t => leadsWith pat hay || hasSub t pat

/-- Python `pat in hay` on strings. -/
def strHasSub (hay pat : String) : Bool :=
  hasSub hay.data pat.data

/-- Python `str.lower()` (ASCII). -/
def pyLower (s : String) : String :=
  ⟨s.data.map Char.toLower⟩

namespace SqlAlchemyUnitOfWork

/-- The `try/except` of `SqlAlchemyUnitOfWork.commit` around
`session.commit()`: `StaleDataError` becomes `ConcurrencyConflictError`;
an `OperationalError` whose lowercased message mentions a locked or busy
database becomes `ConcurrencyConflictError`, any other `OperationalError`
re-raises; everything else propagates unchanged. -/
def commit_translate {α : Type} (r : Except ZkyError α) : Except ZkyError α :=
  match r with
  | .ok a => .ok a
  | .error (.staleData _) =>
    .error (.concurrencyConflict "Optimistic lock conflict during commit")
  | .error (.operationalError msg) =>
    if strHasSub (pyLower msg) "database is locked" ||
        strHasSub (pyLower msg) "database is busy" then
      .error (.concurrencyConflict "Database is busy/locked during commit")
    else
      .error (.operationalError msg)
  | .error e => .error e

end SqlAlchemyUnitOfWork

/-- Modelled from the spec: the flush of a mutated versioned account row.
The deciding code is the SQLAlchemy mapper versioning configured by
`__mapper_args__ = {"version_id_col": version}` in `models.py`, whose
implementation is library code not in this repository.  Following the
spec (§3 "version increases by exactly 1 on every persisted mutation",
§5 "save/commit fails with ConcurrencyConflict if the stored version has
advanced since it was read") and SQLAlchemy's documented `version_id_col`
contract, the flushed UPDATE is guarded by `WHERE version =
read_version`, writes `version = read_version + 1`, and raises
`StaleDataError` when no row matches. -/
def flush_versioned_update (stored : Nat → Option AccountRow) (account_id : Nat)
    (read_version : Nat) (account_number : String) (balance_cents : Int)
    (currency : String) : Except ZkyError (Nat → Option AccountRow) :=
  match stored account_id with
  | none => .error (.staleData "UPDATE matched no rows")
  | some cur =>
    if cur.version = read_version then
      .ok fun k =>
        if k = account_id then
          some ⟨account_id, account_number, balance_cents, currency, read_version + 1⟩
        else stored k
    else .error (.staleData "UPDATE matched no rows")

/-- `SqlAlchemyUnitOfWork.commit` over a session holding one mutated
versioned account row: flush, then translate per the commit handler. -/
def commit_versioned (stored : Nat → Option AccountRow) (account_id : Nat)
    (read_version : Nat) (account_number : String) (balance_cents : Int)
    (currency : String) : Except ZkyError (Nat → Option AccountRow) :=
  SqlAlchemyUnitOfWork.commit_translate
    (flush_versioned_update stored account_id read_version account_number
      balance_cents currency)

/-! ### Concrete fixtures used by witness theorems -/

/-- A two-account store keyed by account number: "222222" holds 5000 BRL,
"111111" holds 0 BRL. -/
def sampleAccountsFun : String → Option Account := fun k =>
  if k = "222222" then some ⟨1, ⟨"222222"⟩, ⟨5000, "BRL"⟩⟩
  else if k = "111111" then some ⟨2, ⟨"111111"⟩, ⟨0, "BRL"⟩⟩
  else none

/-- A world over the two-account store with a given injected-conflict
countdown, an empty ledger, id supply starting at 10, and an empty
trace. -/
def sampleWorldConflicts (c : Nat) : World :=
  ⟨⟨sampleAccountsFun, []⟩, c, 10, 99, []⟩

/-- The conflict-free sample world. -/
def sampleWorld : World :=
  sampleWorldConflicts 0

/-- A transfer request from "222222" to "111111" exceeding the source
balance. -/
def sampleOverdraftCmd : TransferCommand :=
  ⟨"222222", "111111", 9000, "BRL"⟩

/-- A transfer request from "222222" to "111111" within the source
balance. -/
def sampleTransferCmd : TransferCommand :=
  ⟨"222222", "111111", 2000, "BRL"⟩

/-- A withdraw request against "222222" within its balance. -/
def sampleWithdrawCmd : WithdrawCommand :=
  ⟨"222222", 2000, "BRL"⟩

/-- A create-account request with an initial deposit. -/
def sampleCreateCmd : CreateAccountCommand :=
  ⟨"333333", 1500, "BRL"⟩

/-! ## Supporting lemmas -/

theorem Money.make_ok {a : Int} {c : String} {m : Money} (h : Money.make a c = .ok m) :
    m.amount_cents = a ∧ m.currency = c ∧ 0 ≤ a ∧ c ≠ "" := by
  unfold Money.make at h
  split at h
  · cases h
  · split at h
    · cases h
    · cases h
      refine ⟨rfl, rfl, by omega, by assumption⟩

theorem pyStrLtChars_flip : ∀ as bs : List Char,
    pyStrLtChars as bs = false → as ≠ bs → pyStrLtChars bs as = true := by
  intro as
  induction as with
  | nil =>
    intro bs h hne
    cases bs with
    | nil => exact absurd rfl hne
    | cons b bs => simp [pyStrLtChars] at h
  | cons a as ih =>
    intro bs h hne
    cases bs with
    | nil => simp [pyStrLtChars]
    | cons b bs =>
      simp only [pyStrLtChars] at h ⊢
      rcases lt_trichotomy a b with hab | hab | hab
      · simp [hab] at h
      · subst hab
        simp only [lt_irrefl, if_false] at h ⊢
        exact ih bs h (by simpa using hne)
      · simp [hab, not_lt_of_gt hab]

/-- The strict comparison used for stable lock ordering is total on distinct
strings. -/
theorem pyStrLt_flip (a b : String) (h : pyStrLt a b = false) (hne : a ≠ b) :
    pyStrLt b a = true :=
  pyStrLtChars_flip a.data b.data h fun hd => hne (by
    cases a
    cases b
    exact congrArg String.mk hd)

/-- The account number locked first by
`TransferUseCase.load_accounts_with_stable_locks`. -/
def lowerNumber (src dst : AccountNumber) : AccountNumber :=
  if pyStrLt dst.value src.value then dst else src

/-- The account number locked second by
`TransferUseCase.load_accounts_with_stable_locks`. -/
def higherNumber (src dst : AccountNumber) : AccountNumber :=
  if pyStrLt dst.value src.value then src else dst

theorem lowerNumber_lt_higherNumber (src dst : AccountNumber)
    (hne : src.value ≠ dst.value) :
    pyStrLt (lowerNumber src dst).value (higherNumber src dst).value = true := by
  unfold lowerNumber higherNumber
  by_cases hlt : pyStrLt dst.value src.value = true
  · simp [hlt]
  · have := pyStrLt_flip dst.value src.value (by simpa using hlt) fun hd => hne hd.symm
    simp [hlt, this]

/-- Evaluation of one withdraw attempt over a store holding the account,
with no injected conflict. -/
theorem withdraw_single_attempt_eval (w : World) (n : AccountNumber) (amount : Money)
    (A : Account) (hc : w.conflicts = 0) (hA : w.store.accounts n.value = some A) :
    WithdrawUseCase.single_attempt w n amount =
      match A.withdraw amount with
      | .error e => ({ w with trace := w.trace ++ [n.value] }, .error e)
      | .ok a1 =>
        ({ w with
            trace := w.trace ++ [n.value]
            nextId := w.nextId + 1
            store := (w.store.ledger_save
              (LedgerEntry.create w.nextId a1.account_id .WITHDRAWAL amount none none
                w.now)).save a1 },
          .ok a1) := by
  unfold WithdrawUseCase.single_attempt World.get_by_number_for_update
  simp only [hc, hA]
  rcases hw : A.withdraw amount with e | a1 <;> simp [World.freshId]

/-- A withdraw attempt with a positive injected-conflict countdown fails
with the simulated conflict, decrementing the countdown and leaving the
committed store untouched. -/
theorem withdraw_single_attempt_conflict (w : World) (n : AccountNumber) (amount : Money)
    (k : Nat) (hc : w.conflicts = k + 1) :
    WithdrawUseCase.single_attempt w n amount =
      ({ w with trace := w.trace ++ [n.value], conflicts := k },
        .error (.concurrencyConflict "Simulated concurrency conflict")) := by
  unfold WithdrawUseCase.single_attempt World.get_by_number_for_update
  simp [hc]

/-- Any failing withdraw attempt leaves the committed store unchanged (the
session is discarded when the error unwinds out of the boundary). -/
theorem withdraw_single_attempt_error_store (w : World) (n : AccountNumber) (amount : Money)
    (w1 : World) (e : ZkyError)
    (h : WithdrawUseCase.single_attempt w n amount = (w1, .error e)) :
    w1.store = w.store := by
  unfold WithdrawUseCase.single_attempt World.get_by_number_for_update at h
  rcases hc : w.conflicts with _ | k <;> simp only [hc] at h
  · rcases hA : w.store.accounts n.value with _ | A <;> simp only [hA] at h
    · cases h
      rfl
    · rcases hw : A.withdraw amount with e1 | a1 <;> simp only [hw] at h
      · cases h
        rfl
      · simp [World.freshId] at h
  · cases h
    rfl

/-- A read with locking intent only appends to the trace and may decrement
the conflict countdown; it never touches the committed store, the id
supply, or the clock. -/
theorem get_for_update_fields (w : World) (s : Store) (n : AccountNumber) :
    (w.get_by_number_for_update s n).1.store = w.store ∧
    (w.get_by_number_for_update s n).1.nextId = w.nextId ∧
    (w.get_by_number_for_update s n).1.now = w.now := by
  unfold World.get_by_number_for_update
  rcases hc : w.conflicts with _ | k <;> simp [hc]

/-- Loading both accounts for a transfer never touches the committed store,
the id supply, or the clock. -/
theorem load_accounts_fields (w : World) (s : Store) (src dst : AccountNumber) :
    (TransferUseCase.load_accounts_with_stable_locks w s src dst).1.store = w.store ∧
    (TransferUseCase.load_accounts_with_stable_locks w s src dst).1.nextId = w.nextId ∧
    (TransferUseCase.load_accounts_with_stable_locks w s src dst).1.now = w.now := by
  unfold TransferUseCase.load_accounts_with_stable_locks
  by_cases hlt : pyStrLt dst.value src.value = true <;>
    simp only [hlt, Bool.false_eq_true, if_true, if_false]
  · rcases h1 : w.get_by_number_for_update s dst with ⟨w1, r1⟩
    have f1 := get_for_update_fields w s dst
    rw [h1] at f1
    rcases r1 with e1 | o1
    · simpa using f1
    · rcases h2 : w1.get_by_number_for_update s src with ⟨w2, r2⟩
      have f2 := get_for_update_fields w1 s src
      rw [h2] at f2
      rcases r2 with e2 | o2
      · simp only [h2]
        exact ⟨f2.1.trans f1.1, f2.2.1.trans f1.2.1, f2.2.2.trans f1.2.2⟩
      · rcases o1 with _ | a1 <;> rcases o2 with _ | a2 <;>
          simp only [h2] <;>
          exact ⟨f2.1.trans f1.1, f2.2.1.trans f1.2.1, f2.2.2.trans f1.2.2⟩
  · rcases h1 : w.get_by_number_for_update s src with ⟨w1, r1⟩
    have f1 := get_for_update_fields w s src
    rw [h1] at f1
    rcases r1 with e1 | o1
    · simpa using f1
    · rcases h2 : w1.get_by_number_for_update s dst with ⟨w2, r2⟩
      have f2 := get_for_update_fields w1 s dst
      rw [h2] at f2
      rcases r2 with e2 | o2
      · simp only [h2]
        exact ⟨f2.1.trans f1.1, f2.2.1.trans f1.2.1, f2.2.2.trans f1.2.2⟩
      · rcases o1 with _ | a1 <;> rcases o2 with _ | a2 <;>
          simp only [h2] <;>
          exact ⟨f2.1.trans f1.1, f2.2.1.trans f1.2.1, f2.2.2.trans f1.2.2⟩

/-- Any failing transfer attempt leaves the committed store unchanged. -/
theorem transfer_single_attempt_error_store (w : World) (src dst : AccountNumber)
    (amount : Money) (corr : Nat) (w1 : World) (e : ZkyError)
    (h : TransferUseCase.single_attempt w src dst amount corr = (w1, .error e)) :
    w1.store = w.store := by
  simp only [TransferUseCase.single_attempt] at h
  rcases hl : TransferUseCase.load_accounts_with_stable_locks w w.store src dst with ⟨w2, r⟩
  have hs := (load_accounts_fields w w.store src dst).1
  rw [hl] at hs h
  rcases r with e1 | ⟨la, lb⟩
  · cases h
    exact hs
  · simp only at h
    rcases hm : TransferUseCase.map_transfer_direction la lb src with ⟨sa, da⟩
    rw [hm] at h
    rcases hw : sa.withdraw amount with e2 | sa1 <;> rw [hw] at h
    · cases h
      exact hs
    · rcases hd : da.deposit amount with e3 | da1 <;> rw [hd] at h
      · cases h
        exact hs
      · simp [World.freshId] at h

/-- A transfer attempt with a positive injected-conflict countdown fails
with the simulated conflict on the first (lower-numbered) locking read,
decrementing the countdown and leaving the committed store untouched. -/
theorem transfer_single_attempt_conflict (w : World) (src dst : AccountNumber)
    (amount : Money) (corr : Nat) (k : Nat) (hc : w.conflicts = k + 1) :
    TransferUseCase.single_attempt w src dst amount corr =
      ({ w with trace := w.trace ++ [(lowerNumber src dst).value], conflicts := k },
        .error (.concurrencyConflict "Simulated concurrency conflict")) := by
  unfold TransferUseCase.single_attempt TransferUseCase.load_accounts_with_stable_locks
    World.get_by_number_for_update lowerNumber
  by_cases hlt : pyStrLt dst.value src.value = true <;>
    simp [hlt, hc]

/-- Evaluation of one transfer attempt over a store holding both (distinct)
accounts, with no injected conflict: the trace gains the two account
numbers in ascending order, the locked accounts are re-mapped to the
(source, destination) roles by account number, and on success the session
with both mutated accounts and both ledger entries is committed. -/
theorem transfer_single_attempt_eval (w : World) (src dst : AccountNumber)
    (amount : Money) (corr : Nat) (A B : Account)
    (hc : w.conflicts = 0) (hne : src.value ≠ dst.value)
    (hA : w.store.accounts src.value = some A) (hAn : A.account_number.value = src.value)
    (hB : w.store.accounts dst.value = some B) (hBn : B.account_number.value = dst.value) :
    TransferUseCase.single_attempt w src dst amount corr =
      match A.withdraw amount with
      | .error e =>
        ({ w with trace :=
            w.trace ++ [(lowerNumber src dst).value, (higherNumber src dst).value] },
          .error e)
      | .ok sA =>
        match B.deposit amount with
        | .error e =>
          ({ w with trace :=
              w.trace ++ [(lowerNumber src dst).value, (higherNumber src dst).value] },
            .error e)
        | .ok dB =>
          ({ w with
              trace :=
                w.trace ++ [(lowerNumber src dst).value, (higherNumber src dst).value]
              nextId := w.nextId + 2
              store := ((((w.store.ledger_save
                (LedgerEntry.create w.nextId sA.account_id .TRANSFER_OUT amount
                  (some corr) (some dB.account_number) w.now)).ledger_save
                (LedgerEntry.create (w.nextId + 1) dB.account_id .TRANSFER_IN amount
                  (some corr) (some sA.account_number) w.now)).save sA).save dB) },
            .ok (sA, dB)) := by
  unfold TransferUseCase.single_attempt TransferUseCase.load_accounts_with_stable_locks
    World.get_by_number_for_update TransferUseCase.map_transfer_direction
    lowerNumber higherNumber
  have hmapB : ¬(B.account_number.value = src.value) := fun hx => hne (hBn ▸ hx).symm
  by_cases hlt : pyStrLt dst.value src.value = true <;>
    simp only [hlt, Bool.false_eq_true, if_true, if_false] <;>
    simp only [hc, hA, hB, hAn, hBn] <;>
    rcases hw : A.withdraw amount with e | sA <;>
    rcases hd : B.deposit amount with e1 | dB
  all_goals
    simp [Ne.symm hne, hw, hd, World.freshId]

theorem Account.withdraw_insufficient (a : Account) (amount : Money)
    (hcur : amount.currency = a.balance.currency)
    (hbal : 0 ≤ a.balance.amount_cents)
    (hgt : a.balance.amount_cents < amount.amount_cents) :
    a.withdraw amount = .error (.insufficientFunds "Insufficient funds for withdrawal") := by
  have hz : amount.is_zero = false := by
    simp only [Money.is_zero, decide_eq_false_iff_not]
    omega
  unfold Account.withdraw
  simp [hz, Money.gt, Money.ensure_same_currency, hcur, hgt]

theorem Account.withdraw_ok_eval (a : Account) (amount : Money)
    (hcur : amount.currency = a.balance.currency)
    (hz : amount.is_zero = false)
    (hle : amount.amount_cents ≤ a.balance.amount_cents) :
    a.withdraw amount =
      .ok { a with balance :=
        ⟨a.balance.amount_cents - amount.amount_cents, a.balance.currency⟩ } := by
  unfold Account.withdraw
  have hng : ¬amount.amount_cents > a.balance.amount_cents := by omega
  simp [hz, Money.gt, Money.sub, Money.ensure_same_currency, hcur, hng]

theorem Account.deposit_ok_eval (a : Account) (amount : Money)
    (hcur : amount.currency = a.balance.currency)
    (hz : amount.is_zero = false) :
    a.deposit amount =
      .ok { a with balance :=
        ⟨a.balance.amount_cents + amount.amount_cents, a.balance.currency⟩ } := by
  unfold Account.deposit
  simp [hz, Money.add, Money.ensure_same_currency, hcur]

theorem Account.withdraw_ok_shape (a a1 : Account) (amount : Money)
    (h : a.withdraw amount = .ok a1) :
    a1.account_id = a.account_id ∧ a1.account_number = a.account_number ∧
    amount.is_zero = false := by
  unfold Account.withdraw at h
  rcases hz : amount.is_zero <;> rw [hz] at h
  · rcases hg : amount.gt a.balance with e | b <;> rw [hg] at h
    · cases h
    · rcases b <;> simp only [Bool.false_eq_true, if_false] at h
      · rcases hs : a.balance.sub amount with e | b1 <;> rw [hs] at h
        · cases h
        · cases h
          exact ⟨rfl, rfl, rfl⟩
      · cases h
  · cases h

theorem Account.deposit_ok_shape (a a1 : Account) (amount : Money)
    (h : a.deposit amount = .ok a1) :
    a1.account_id = a.account_id ∧ a1.account_number = a.account_number ∧
    amount.is_zero = false := by
  unfold Account.deposit at h
  rcases hz : amount.is_zero <;> rw [hz] at h
  · rcases ha : a.balance.add amount with e | b <;> rw [ha] at h
    · cases h
    · cases h
      exact ⟨rfl, rfl, rfl⟩
  · cases h

theorem withdraw_loop_zero (n : AccountNumber) (amount : Money) (w : World) :
    WithdrawUseCase.execute_loop n amount 0 w =
      (w, .error (.concurrencyConflict "Withdraw failed after retries")) := rfl

theorem withdraw_loop_succ (n : AccountNumber) (amount : Money) (k : Nat) (w : World) :
    WithdrawUseCase.execute_loop n amount (k + 1) w =
      match WithdrawUseCase.single_attempt w n amount with
      | (w1, .ok a) => (w1, .ok a)
      | (w1, .error e) =>
        if e.isConcurrencyConflict then WithdrawUseCase.execute_loop n amount k w1
        else (w1, .error e) := rfl

theorem transfer_loop_zero (src dst : AccountNumber) (amount : Money) (corr : Nat)
    (w : World) :
    TransferUseCase.execute_loop src dst amount corr 0 w =
      (w, .error (.concurrencyConflict "Transfer failed after retries")) := rfl

theorem transfer_loop_succ (src dst : AccountNumber) (amount : Money) (corr : Nat)
    (k : Nat) (w : World) :
    TransferUseCase.execute_loop src dst amount corr (k + 1) w =
      match TransferUseCase.single_attempt w src dst amount corr with
      | (w1, .ok r) => (w1, .ok r)
      | (w1, .error e) =>
        if e.isConcurrencyConflict then
          TransferUseCase.execute_loop src dst amount corr k w1
        else (w1, .error e) := rfl

theorem Store.save_ledger (s : Store) (a : Account) : (s.save a).ledger = s.ledger := rfl

theorem Store.ledger_save_ledger (s : Store) (e : LedgerEntry) :
    (s.ledger_save e).ledger = s.ledger ++ [e] := rfl

/-- Reduced form of a successful withdraw attempt. -/
theorem withdraw_single_attempt_ok (w : World) (n : AccountNumber) (amount : Money)
    (A a1 : Account) (hc : w.conflicts = 0) (hA : w.store.accounts n.value = some A)
    (hw : A.withdraw amount = .ok a1) :
    WithdrawUseCase.single_attempt w n amount =
      ({ w with
          trace := w.trace ++ [n.value]
          nextId := w.nextId + 1
          store := (w.store.ledger_save
            (LedgerEntry.create w.nextId a1.account_id .WITHDRAWAL amount none none
              w.now)).save a1 },
        .ok a1) := by
  rw [withdraw_single_attempt_eval w n amount A hc hA, hw]

/-- Reduced form of a successful transfer attempt. -/
theorem transfer_single_attempt_ok (w : World) (src dst : AccountNumber)
    (amount : Money) (corr : Nat) (A B sA dB : Account)
    (hc : w.conflicts = 0) (hne : src.value ≠ dst.value)
    (hA : w.store.accounts src.value = some A) (hAn : A.account_number.value = src.value)
    (hB : w.store.accounts dst.value = some B) (hBn : B.account_number.value = dst.value)
    (hw : A.withdraw amount = .ok sA) (hd : B.deposit amount = .ok dB) :
    TransferUseCase.single_attempt w src dst amount corr =
      ({ w with
          trace := w.trace ++ [(lowerNumber src dst).value, (higherNumber src dst).value]
          nextId := w.nextId + 2
          store := ((((w.store.ledger_save
            (LedgerEntry.create w.nextId sA.account_id .TRANSFER_OUT amount
              (some corr) (some dB.account_number) w.now)).ledger_save
            (LedgerEntry.create (w.nextId + 1) dB.account_id .TRANSFER_IN amount
              (some corr) (some sA.account_number) w.now)).save sA).save dB) },
        .ok (sA, dB)) := by
  rw [transfer_single_attempt_eval w src dst amount corr A B hc hne hA hAn hB hBn]
  simp only [hw, hd]

/-- A conflicted iteration of the withdraw retry loop passes to the next
iteration with the countdown decremented and the store untouched. -/
theorem withdraw_loop_step_conflict (n : AccountNumber) (amount : Money) (w : World)
    (k fuel : Nat) (hc : w.conflicts = k + 1) :
    WithdrawUseCase.execute_loop n amount (fuel + 1) w =
      WithdrawUseCase.execute_loop n amount fuel
        { w with trace := w.trace ++ [n.value], conflicts := k } := by
  rw [withdraw_loop_succ, withdraw_single_attempt_conflict w n amount k hc]
  simp [ZkyError.isConcurrencyConflict]

/-- A conflicted iteration of the transfer retry loop passes to the next
iteration with the countdown decremented and the store untouched. -/
theorem transfer_loop_step_conflict (src dst : AccountNumber) (amount : Money)
    (corr : Nat) (w : World) (k fuel : Nat) (hc : w.conflicts = k + 1) :
    TransferUseCase.execute_loop src dst amount corr (fuel + 1) w =
      TransferUseCase.execute_loop src dst amount corr fuel
        { w with trace := w.trace ++ [(lowerNumber src dst).value], conflicts := k } := by
  rw [transfer_loop_succ, transfer_single_attempt_conflict w src dst amount corr k hc]
  simp [ZkyError.isConcurrencyConflict]

/-- A successful withdraw attempt appends exactly one entry, carrying the
requested amount, which the preceding `Account.withdraw` guaranteed
non-zero. -/
theorem withdraw_attempt_ok_ledger (w : World) (n : AccountNumber) (amount : Money)
    (w1 : World) (a : Account)
    (h : WithdrawUseCase.single_attempt w n amount = (w1, .ok a)) :
    (∀ e ∈ w1.store.ledger, e ∈ w.store.ledger ∨ e.amount = amount) ∧
    amount.is_zero = false := by
  unfold WithdrawUseCase.single_attempt World.get_by_number_for_update at h
  rcases hc : w.conflicts with _ | k <;> simp only [hc] at h
  · rcases hA : w.store.accounts n.value with _ | A <;> simp only [hA] at h
    · simp at h
    · rcases hw : A.withdraw amount with e1 | a1 <;> simp only [hw] at h
      · simp at h
      · simp only [World.freshId] at h
        cases h
        refine ⟨fun e he => ?_, (Account.withdraw_ok_shape A a amount hw).2.2⟩
        simp only [Store.save_ledger, Store.ledger_save_ledger] at he
        rcases List.mem_append.mp he with h1 | h2
        · exact Or.inl h1
        · right
          rw [List.mem_singleton.mp h2]
          exact rfl
  · simp at h

/-- A successful transfer attempt appends exactly two entries, both
carrying the requested amount, which the preceding `Account.withdraw`
guaranteed non-zero. -/
theorem transfer_attempt_ok_ledger (w : World) (src dst : AccountNumber)
    (amount : Money) (corr : Nat) (w1 : World) (p : Account × Account)
    (h : TransferUseCase.single_attempt w src dst amount corr = (w1, .ok p)) :
    (∀ e ∈ w1.store.ledger, e ∈ w.store.ledger ∨ e.amount = amount) ∧
    amount.is_zero = false := by
  simp only [TransferUseCase.single_attempt] at h
  rcases hl : TransferUseCase.load_accounts_with_stable_locks w w.store src dst with ⟨w2, r⟩
  rw [hl] at h
  rcases r with e1 | ⟨la, lb⟩
  · simp at h
  · simp only at h
    rcases hm : TransferUseCase.map_transfer_direction la lb src with ⟨sa, da⟩
    rw [hm] at h
    rcases hw : sa.withdraw amount with e2 | sa1 <;> rw [hw] at h
    · simp at h
    · rcases hd : da.deposit amount with e3 | da1 <;> rw [hd] at h
      · simp at h
      · simp only [World.freshId] at h
        cases h
        refine ⟨fun e he => ?_, (Account.withdraw_ok_shape sa sa1 amount hw).2.2⟩
        simp only [Store.save_ledger, Store.ledger_save_ledger, List.append_assoc] at he
        rcases List.mem_append.mp he with h1 | h2
        · exact Or.inl h1
        · right
          rcases List.mem_append.mp h2 with h3 | h3 <;>
            rw [List.mem_singleton.mp h3] <;> exact rfl

/-- A successful run of the withdraw retry loop appends only entries
carrying the (non-zero) requested amount. -/
theorem withdraw_loop_ok_ledger (n : AccountNumber) (amount : Money) :
    ∀ (fuel : Nat) (w w1 : World) (a : Account),
      WithdrawUseCase.execute_loop n amount fuel w = (w1, .ok a) →
      (∀ e ∈ w1.store.ledger, e ∈ w.store.ledger ∨ e.amount = amount) ∧
      amount.is_zero = false := by
  intro fuel
  induction fuel with
  | zero =>
    intro w w1 a h
    rw [withdraw_loop_zero] at h
    simp at h
  | succ k ih =>
    intro w w1 a h
    rw [withdraw_loop_succ] at h
    rcases hs : WithdrawUseCase.single_attempt w n amount with ⟨w2, r⟩
    rw [hs] at h
    rcases r with e | a2
    · simp only at h
      by_cases hcc : e.isConcurrencyConflict = true
      · rw [if_pos hcc] at h
        have hst := withdraw_single_attempt_error_store w n amount w2 e hs
        have hih := ih w2 w1 a h
        refine ⟨fun e2 he2 => ?_, hih.2⟩
        rcases hih.1 e2 he2 with h1 | h2
        · rw [hst] at h1
          exact Or.inl h1
        · exact Or.inr h2
      · rw [if_neg hcc] at h
        simp at h
    · simp only at h
      cases h
      exact withdraw_attempt_ok_ledger w n amount w1 a hs

/-- A successful run of the transfer retry loop appends only entries
carrying the (non-zero) requested amount. -/
theorem transfer_loop_ok_ledger (src dst : AccountNumber) (amount : Money) (corr : Nat) :
    ∀ (fuel : Nat) (w w1 : World) (p : Account × Account),
      TransferUseCase.execute_loop src dst amount corr fuel w = (w1, .ok p) →
      (∀ e ∈ w1.store.ledger, e ∈ w.store.ledger ∨ e.amount = amount) ∧
      amount.is_zero = false := by
  intro fuel
  induction fuel with
  | zero =>
    intro w w1 p h
    rw [transfer_loop_zero] at h
    simp at h
  | succ k ih =>
    intro w w1 p h
    rw [transfer_loop_succ] at h
    rcases hs : TransferUseCase.single_attempt w src dst amount corr with ⟨w2, r⟩
    rw [hs] at h
    rcases r with e | p2
    · simp only at h
      by_cases hcc : e.isConcurrencyConflict = true
      · rw [if_pos hcc] at h
        have hst := transfer_single_attempt_error_store w src dst amount corr w2 e hs
        have hih := ih w2 w1 p h
        refine ⟨fun e2 he2 => ?_, hih.2⟩
        rcases hih.1 e2 he2 with h1 | h2
        · rw [hst] at h1
          exact Or.inl h1
        · exact Or.inr h2
      · rw [if_neg hcc] at h
        simp at h
    · simp only at h
      cases h
      exact transfer_attempt_ok_ledger w src dst amount corr w1 p hs

theorem Money.is_zero_false_ne {m : Money} (h : m.is_zero = false) :
    m.amount_cents ≠ 0 := by
  simpa [Money.is_zero] using h

/-! ## Claims -/

/-- C9: for every account A and every non-zero Money amount x of the same
currency as A's balance (both well-formed, i.e. non-negative), depositing x
and then withdrawing x succeeds and returns the account to exactly its
original state, so the balance is unchanged. -/
theorem deposit_withdraw_round_trip (a : Account) (x : Money)
    (hcur : x.currency = a.balance.currency)
    (hnz : x.is_zero = false)
    (hbal : 0 ≤ a.balance.amount_cents) :
    ∃ a1, a.deposit x = .ok a1 ∧ a1.withdraw x = .ok a := by
  obtain ⟨aid, anum, b, c⟩ := a
  obtain ⟨xa, xc⟩ := x
  simp only [Money.is_zero, decide_eq_false_iff_not] at hnz
  simp only at hcur hbal
  refine ⟨⟨aid, anum, b + xa, c⟩, ?_, ?_⟩
  · simp [Account.deposit, Money.is_zero, hnz, Money.add, Money.ensure_same_currency, hcur]
  · simp only [Account.withdraw, Money.is_zero, Money.gt, Money.ensure_same_currency, hcur,
      Money.sub]
    have h1 : ¬xa > b + xa := by omega
    have h2 : b + xa - xa = b := by omega
    simp [hnz, h1, h2]

/-- Witness for C9 at a concrete account and amount. -/
theorem deposit_withdraw_round_trip_witness :
    ∃ a1, (Account.mk 7 ⟨"123456"⟩ ⟨5000, "BRL"⟩).deposit ⟨2000, "BRL"⟩ = .ok a1 ∧
      a1.withdraw ⟨2000, "BRL"⟩ = .ok (Account.mk 7 ⟨"123456"⟩ ⟨5000, "BRL"⟩) :=
  deposit_withdraw_round_trip (Account.mk 7 ⟨"123456"⟩ ⟨5000, "BRL"⟩) ⟨2000, "BRL"⟩
    (by decide) (by decide) (by decide)

/-- C7 counterexample: `Money` construction accepts the malformed (not
3-letter) currency code "ZZZZ" instead of failing, and both a currency
mismatch and a negative subtraction result raise the one `InvalidMoney`
error kind rather than distinguishable `CurrencyMismatch` / `NegativeResult`
kinds. -/
theorem money_error_kinds_counterexample :
    Money.make 100 "ZZZZ" = .ok ⟨100, "ZZZZ"⟩ ∧
    Money.add ⟨1, "BRL"⟩ ⟨1, "USD"⟩ = .error (.invalidMoney "Money currency mismatch") ∧
    Money.sub ⟨3, "BRL"⟩ ⟨5, "BRL"⟩ =
      .error (.invalidMoney "Resulting Money amount cannot be negative") :=
  ⟨rfl, rfl, rfl⟩

/-- C7 (amended): Money construction fails for negative amounts and for the
empty currency string, and succeeds for every non-negative amount with any
non-empty currency string (malformed codes included); every binary Money
operation between two different currencies fails; and subtract fails
whenever it would produce an amount below zero — all of these failures
carrying the single `InvalidMoney` error kind of `domain/errors.py` (the
non-integer-amount check is a type guard unrepresentable in this typed
embedding). -/
theorem money_single_error_kind_spec :
    (∀ (a : Int) (c : String),
      (a < 0 → Money.make a c = .error (.invalidMoney "Money amount cannot be a bellow zero")) ∧
      (0 ≤ a → c = "" →
        Money.make a c = .error (.invalidMoney "Currency must be a non-empty string")) ∧
      (0 ≤ a → c ≠ "" → Money.make a c = .ok ⟨a, c⟩)) ∧
    (∀ m o : Money, m.currency ≠ o.currency →
      m.add o = .error (.invalidMoney "Money currency mismatch") ∧
      m.sub o = .error (.invalidMoney "Money currency mismatch") ∧
      m.lt o = .error (.invalidMoney "Money currency mismatch") ∧
      m.le o = .error (.invalidMoney "Money currency mismatch") ∧
      m.gt o = .error (.invalidMoney "Money currency mismatch") ∧
      m.ge o = .error (.invalidMoney "Money currency mismatch")) ∧
    (∀ m o : Money, m.currency = o.currency → o.amount_cents > m.amount_cents →
      m.sub o = .error (.invalidMoney "Resulting Money amount cannot be negative")) := by
  refine ⟨fun a c => ⟨?_, ?_, ?_⟩, fun m o h => ?_, fun m o hc hgt => ?_⟩
  · intro h
    simp [Money.make, h]
  · intro h1 h2
    simp [Money.make, h2]
    omega
  · intro h1 h2
    simp [Money.make, h2]
    omega
  · refine ⟨?_, ?_, ?_, ?_, ?_, ?_⟩ <;>
      simp [Money.add, Money.sub, Money.lt, Money.le, Money.gt, Money.ge,
        Money.ensure_same_currency, h]
  · simp [Money.sub, Money.ensure_same_currency, hc, hgt]

/-- Witness for the amended C7 theorem at concrete inputs. -/
theorem money_single_error_kind_spec_witness :
    Money.make (-5) "BRL" = .error (.invalidMoney "Money amount cannot be a bellow zero") ∧
    Money.lt ⟨1, "BRL"⟩ ⟨1, "USD"⟩ = .error (.invalidMoney "Money currency mismatch") ∧
    Money.sub ⟨3, "USD"⟩ ⟨5, "USD"⟩ =
      .error (.invalidMoney "Resulting Money amount cannot be negative") :=
  ⟨(money_single_error_kind_spec.1 (-5) "BRL").1 (by decide),
    (money_single_error_kind_spec.2.1 ⟨1, "BRL"⟩ ⟨1, "USD"⟩ (by decide)).2.2.1,
    money_single_error_kind_spec.2.2 ⟨3, "USD"⟩ ⟨5, "USD"⟩ (by decide) (by decide)⟩

/-- Membership is preserved from `dropWhile` back to the original list. -/
theorem mem_of_mem_dropWhile (p : Char → Bool) (c : Char) :
    ∀ (l : List Char), c ∈ l.dropWhile p → c ∈ l := by
  intro l
  induction l with
  | nil => intro h; simp at h
  | cons a t ih =>
    intro h
    rw [List.dropWhile_cons] at h
    by_cases hp : p a = true
    · rw [if_pos hp] at h
      exact List.mem_cons_of_mem a (ih h)
    · rw [if_neg hp] at h
      exact h

/-- Every character of a stripped string is a character of the input. -/
theorem mem_pyStrip (c : Char) (s : String) (h : c ∈ (pyStrip s).data) :
    c ∈ s.data := by
  have h1 : c ∈ ((s.data.dropWhile pyIsSpace).reverse.dropWhile pyIsSpace).reverse := h
  rw [List.mem_reverse] at h1
  have h2 := mem_of_mem_dropWhile pyIsSpace c _ h1
  rw [List.mem_reverse] at h2
  exact mem_of_mem_dropWhile pyIsSpace c _ h2

/-- On the ASCII range the digit table coincides with '0' to '9'. -/
theorem pyIsDigitChar_ascii (c : Char) (h : c.toNat < 128) :
    pyIsDigitChar c = ('0' ≤ c && c ≤ '9') := by
  have e1 : c ≠ '\u00b9' := fun he => absurd h (by subst he; decide)
  have e2 : c ≠ '\u00b2' := fun he => absurd h (by subst he; decide)
  have e3 : c ≠ '\u00b3' := fun he => absurd h (by subst he; decide)
  have e4 : ¬(0x660 ≤ c.toNat) := by omega
  simp [pyIsDigitChar, e1, e2, e3, e4]

/-- C8 counterexample: AccountNumber construction accepts "²²²²²²" — six
copies of the superscript-two codepoint U+00B2, which CPython
`str.isdigit` counts as a digit — although the string does not consist of
ASCII digits, refuting the claim that construction succeeds exactly for
strings whose stripped form is 6 to 12 ASCII digits. -/
theorem account_number_ascii_digits_counterexample :
    AccountNumber.make "²²²²²²" = .ok ⟨"²²²²²²"⟩ ∧
    ¬(∀ ch ∈ ("²²²²²²" : String).data, '0' ≤ ch ∧ ch ≤ '9') :=
  ⟨by decide, by decide⟩

/-- C8 (amended): for every input string of ASCII characters, AccountNumber
construction succeeds exactly when the string, after stripping surrounding
whitespace, consists of 6 to 12 ASCII digits; the stored value is the
stripped string for every accepted input, ASCII or not.  Over arbitrary
Unicode input the digit test is CPython `str.isdigit`, which also accepts
non-ASCII digit codepoints such as the superscript two. -/
theorem account_number_construction_ascii_spec (s : String)
    (hascii : ∀ ch ∈ s.data, ch.toNat < 128) :
    ((∃ a, AccountNumber.make s = .ok a) ↔
      ((pyStrip s).data ≠ [] ∧ (∀ ch ∈ (pyStrip s).data, '0' ≤ ch ∧ ch ≤ '9') ∧
        6 ≤ (pyStrip s).length ∧ (pyStrip s).length ≤ 12)) ∧
    (∀ a, AccountNumber.make s = .ok a → a.value = pyStrip s) := by
  constructor
  · unfold AccountNumber.make
    constructor
    · rintro ⟨a, ha⟩
      split at ha
      · cases ha
      · split at ha
        · cases ha
        · rename_i hdig hlen
          simp only [Bool.not_eq_true', Bool.not_eq_false] at hdig
          simp only [pyIsDigit, Bool.and_eq_true, Bool.not_eq_true', List.isEmpty_eq_false,
            List.all_eq_true] at hdig
          simp only [Bool.not_eq_true, Bool.or_eq_false_iff, decide_eq_false_iff_not,
            not_lt] at hlen
          refine ⟨hdig.1, ?_, by omega, by omega⟩
          intro ch hch
          have hd := hdig.2 ch hch
          rw [pyIsDigitChar_ascii ch (hascii ch (mem_pyStrip ch s hch))] at hd
          simpa using hd
    · rintro ⟨hne, hdig, h6, h12⟩
      have hd : pyIsDigit (pyStrip s) = true := by
        simp only [pyIsDigit, Bool.and_eq_true, Bool.not_eq_true', List.isEmpty_eq_false,
          List.all_eq_true]
        refine ⟨hne, fun ch hch => ?_⟩
        have hc9 := hdig ch hch
        rw [pyIsDigitChar_ascii ch (hascii ch (mem_pyStrip ch s hch))]
        simp [hc9.1, hc9.2]
      refine ⟨⟨pyStrip s⟩, ?_⟩
      have hlen : ((pyStrip s).length < 6 || (pyStrip s).length > 12) = false := by
        simp only [Bool.or_eq_false_iff, decide_eq_false_iff_not, not_lt]
        omega
      simp [hd, hlen]
  · intro a ha
    unfold AccountNumber.make at ha
    split at ha
    · cases ha
    · split at ha
      · cases ha
      · cases ha
        rfl

/-- Witness for the amended C8 theorem: an input carrying a leading
file-separator control character (U+001C) and spaces — all stripped by
CPython — normalizes to the stored six-digit value. -/
theorem account_number_construction_ascii_spec_witness :
    (AccountNumber.mk "123456").value = pyStrip "\x1c 123456 " :=
  (account_number_construction_ascii_spec "\x1c 123456 " (by decide)).2
    ⟨"123456"⟩ (by decide)

/-- C5: the persisted account record carries an integer version counter
(`AccountModel.version`); committing a mutated account increments the
stored version by exactly 1, and fails with the `ConcurrencyConflict` error
kind whenever the stored version differs from the version the account was
read at — purely by comparing versions, with no lock involved in the
model. -/
theorem versioned_commit_occ (stored : Nat → Option AccountRow)
    (aid read_version : Nat) (num : String) (bal : Int) (cur : String)
    (row : AccountRow) (hrow : stored aid = some row) :
    (row.version = read_version →
      ∃ stored1, commit_versioned stored aid read_version num bal cur = .ok stored1 ∧
        stored1 aid = some ⟨aid, num, bal, cur, row.version + 1⟩ ∧
        ∀ k, k ≠ aid → stored1 k = stored k) ∧
    (row.version ≠ read_version →
      commit_versioned stored aid read_version num bal cur =
        .error (.concurrencyConflict "Optimistic lock conflict during commit")) := by
  constructor
  · intro hv
    refine ⟨fun k => if k = aid then some ⟨aid, num, bal, cur, read_version + 1⟩ else stored k,
      ?_, ?_, ?_⟩
    · simp [commit_versioned, flush_versioned_update, hrow, hv,
        SqlAlchemyUnitOfWork.commit_translate]
    · simp [hv]
    · intro k hk
      simp [hk]
  · intro hv
    simp [commit_versioned, flush_versioned_update, hrow, hv,
      SqlAlchemyUnitOfWork.commit_translate]

/-- Witness for C5: committing against a matching stored version succeeds
and bumps the version from 4 to 5. -/
theorem versioned_commit_occ_witness :
    ∃ stored1,
      commit_versioned (fun k => if k = 9 then some ⟨9, "123456", 100, "BRL", 4⟩ else none)
          9 4 "123456" 250 "BRL" = .ok stored1 ∧
        stored1 9 = some ⟨9, "123456", 250, "BRL", 5⟩ ∧
        ∀ k, k ≠ 9 → stored1 k =
          (fun k => if k = 9 then some ⟨9, "123456", 100, "BRL", 4⟩ else none) k :=
  (versioned_commit_occ (fun k => if k = 9 then some ⟨9, "123456", 100, "BRL", 4⟩ else none)
    9 4 "123456" 250 "BRL" ⟨9, "123456", 100, "BRL", 4⟩ (by simp)).1 rfl

/-- C6 counterexample: a lock-conflict failure raised while executing the
locking read (here an `OperationalError` with message "lock wait timeout")
propagates out of `get_by_number_for_update` unchanged as the generic
storage error, not as the `ConcurrencyConflict` kind. -/
theorem for_update_read_error_counterexample :
    SqlAlchemyAccountRepository.get_by_number_for_update
        (.raises (.operationalError "lock wait timeout")) =
      .error (.operationalError "lock wait timeout") ∧
    (ZkyError.operationalError "lock wait timeout").isConcurrencyConflict = false :=
  ⟨rfl, rfl⟩

/-- C6 (amended): a storage failure raised during the locking read
propagates unchanged out of `get_by_number_for_update` (the source wraps
the read in no handler); conflict-to-`ConcurrencyConflict` translation
happens only in `SqlAlchemyUnitOfWork.commit`, which maps `StaleDataError`
and busy/locked `OperationalError` messages to `ConcurrencyConflict` and
re-raises every other `OperationalError` unchanged. -/
theorem conflict_translation_at_commit_only :
    (∀ e, SqlAlchemyAccountRepository.get_by_number_for_update (.raises e) = .error e) ∧
    (∀ msg, SqlAlchemyUnitOfWork.commit_translate
        (Except.error (ZkyError.staleData msg) : Except ZkyError Unit) =
      .error (.concurrencyConflict "Optimistic lock conflict during commit")) ∧
    (∀ msg, (strHasSub (pyLower msg) "database is locked" ||
        strHasSub (pyLower msg) "database is busy") = true →
      SqlAlchemyUnitOfWork.commit_translate
          (Except.error (ZkyError.operationalError msg) : Except ZkyError Unit) =
        .error (.concurrencyConflict "Database is busy/locked during commit")) ∧
    (∀ msg, (strHasSub (pyLower msg) "database is locked" ||
        strHasSub (pyLower msg) "database is busy") = false →
      SqlAlchemyUnitOfWork.commit_translate
          (Except.error (ZkyError.operationalError msg) : Except ZkyError Unit) =
        .error (.operationalError msg)) := by
  refine ⟨fun e => rfl, fun msg => rfl, fun msg h => ?_, fun msg h => ?_⟩
  · simp [SqlAlchemyUnitOfWork.commit_translate, h]
  · simp [SqlAlchemyUnitOfWork.commit_translate, h]

/-- Witness for the amended C6 theorem: a busy-database commit failure is
translated, a connectivity failure is not. -/
theorem conflict_translation_at_commit_only_witness :
    SqlAlchemyUnitOfWork.commit_translate
        (Except.error (ZkyError.operationalError "database is locked") : Except ZkyError Unit) =
      .error (.concurrencyConflict "Database is busy/locked during commit") ∧
    SqlAlchemyUnitOfWork.commit_translate
        (Except.error (ZkyError.operationalError "connection refused") : Except ZkyError Unit) =
      .error (.operationalError "connection refused") :=
  ⟨(conflict_translation_at_commit_only.2.2.1 "database is locked" (by decide)),
    (conflict_translation_at_commit_only.2.2.2 "connection refused" (by decide))⟩

/-- C1: within a transactional transfer attempt between two distinct
existing accounts, the two locking reads are issued in ascending
account-number order — the smaller account number is locked first
regardless of which account is the requested source or destination — and
the two locked accounts are re-mapped to the logical roles by comparing
account numbers, so on success the account withdrawn from is exactly the
requested source and the account deposited to is exactly the requested
destination. -/
theorem transfer_stable_lock_order (w : World) (src dst : AccountNumber)
    (amount : Money) (corr : Nat) (A B : Account)
    (hc : w.conflicts = 0) (hne : src.value ≠ dst.value)
    (hA : w.store.accounts src.value = some A) (hAn : A.account_number.value = src.value)
    (hB : w.store.accounts dst.value = some B) (hBn : B.account_number.value = dst.value) :
    ((TransferUseCase.single_attempt w src dst amount corr).1.trace =
      w.trace ++ [(lowerNumber src dst).value, (higherNumber src dst).value]) ∧
    pyStrLt (lowerNumber src dst).value (higherNumber src dst).value = true ∧
    (∀ sA dB, (TransferUseCase.single_attempt w src dst amount corr).2 = .ok (sA, dB) →
      A.withdraw amount = .ok sA ∧ B.deposit amount = .ok dB ∧
      sA.account_number.value = src.value ∧ dB.account_number.value = dst.value) := by
  have hev := transfer_single_attempt_eval w src dst amount corr A B hc hne hA hAn hB hBn
  refine ⟨?_, lowerNumber_lt_higherNumber src dst hne, ?_⟩
  · rw [hev]
    rcases hw : A.withdraw amount with e | sA <;>
      rcases hd : B.deposit amount with e1 | dB <;> simp
  · intro sA dB hok
    rw [hev] at hok
    rcases hw : A.withdraw amount with e | sA1 <;> rw [hw] at hok
    · simp at hok
    · rcases hd : B.deposit amount with e1 | dB1 <;> rw [hd] at hok
      · simp at hok
      · simp only [Except.ok.injEq, Prod.mk.injEq] at hok
        obtain ⟨rfl, rfl⟩ := hok
        have hws := Account.withdraw_ok_shape A sA1 amount hw
        have hds := Account.deposit_ok_shape B dB1 amount hd
        exact ⟨rfl, rfl, by rw [hws.2.1, hAn], by rw [hds.2.1, hBn]⟩

/-- Witness for C1: a transfer requested from "222222" to "111111" locks
"111111" first. -/
theorem transfer_stable_lock_order_witness :
    (TransferUseCase.single_attempt sampleWorld ⟨"222222"⟩ ⟨"111111"⟩
        ⟨2000, "BRL"⟩ 5).1.trace =
      sampleWorld.trace ++
        [(lowerNumber ⟨"222222"⟩ ⟨"111111"⟩).value,
          (higherNumber ⟨"222222"⟩ ⟨"111111"⟩).value] ∧
    pyStrLt (lowerNumber ⟨"222222"⟩ ⟨"111111"⟩).value
      (higherNumber ⟨"222222"⟩ ⟨"111111"⟩).value = true :=
  have h := transfer_stable_lock_order sampleWorld ⟨"222222"⟩ ⟨"111111"⟩
    ⟨2000, "BRL"⟩ 5 ⟨1, ⟨"222222"⟩, ⟨5000, "BRL"⟩⟩ ⟨2, ⟨"111111"⟩, ⟨0, "BRL"⟩⟩
    rfl (by decide) (by decide) rfl (by decide) rfl
  ⟨h.1, h.2.1⟩

/-- C3: a transfer whose amount exceeds the source balance fails with the
`InsufficientFunds` error, performs only one attempt (the trace gains just
the two locking reads of that single attempt), and leaves the committed
store — both balances and the ledger — exactly as it was. -/
theorem transfer_insufficient_funds_rollback (w : World) (cmd : TransferCommand)
    (src dst : AccountNumber) (amount : Money) (A B : Account)
    (hsrc : AccountNumber.make cmd.from_account_number = .ok src)
    (hdst : AccountNumber.make cmd.to_account_number = .ok dst)
    (hamt : Money.make cmd.amount_cents cmd.currency = .ok amount)
    (hne : src.value ≠ dst.value)
    (hc : w.conflicts = 0)
    (hA : w.store.accounts src.value = some A) (hAn : A.account_number.value = src.value)
    (hB : w.store.accounts dst.value = some B) (hBn : B.account_number.value = dst.value)
    (hcur : amount.currency = A.balance.currency)
    (hbal : 0 ≤ A.balance.amount_cents)
    (hgt : A.balance.amount_cents < amount.amount_cents) :
    (TransferUseCase.execute w cmd).2 =
      .error (.insufficientFunds "Insufficient funds for withdrawal") ∧
    (TransferUseCase.execute w cmd).1.store = w.store ∧
    (TransferUseCase.execute w cmd).1.trace =
      w.trace ++ [(lowerNumber src dst).value, (higherNumber src dst).value] := by
  have hwd := Account.withdraw_insufficient A amount hcur hbal hgt
  have hev := transfer_single_attempt_eval { w with nextId := w.nextId + 1 } src dst
    amount w.nextId A B hc hne hA hAn hB hBn
  rw [hwd] at hev
  simp only [TransferUseCase.execute, hsrc, hdst, hamt, World.freshId]
  rw [if_neg hne]
  rw [transfer_loop_succ, hev]
  simp [ZkyError.isConcurrencyConflict]

/-- Witness for C3: transferring 9000 out of a 5000 balance fails with
`InsufficientFunds` and changes nothing. -/
theorem transfer_insufficient_funds_rollback_witness :
    (TransferUseCase.execute sampleWorld sampleOverdraftCmd).2 =
      .error (.insufficientFunds "Insufficient funds for withdrawal") ∧
    (TransferUseCase.execute sampleWorld sampleOverdraftCmd).1.store =
      sampleWorld.store :=
  have h := transfer_insufficient_funds_rollback sampleWorld sampleOverdraftCmd
    ⟨"222222"⟩ ⟨"111111"⟩ ⟨9000, "BRL"⟩
    ⟨1, ⟨"222222"⟩, ⟨5000, "BRL"⟩⟩ ⟨2, ⟨"111111"⟩, ⟨0, "BRL"⟩⟩
    (by decide) (by decide) (by decide) (by decide) rfl
    (by decide) rfl (by decide) rfl rfl (by decide) (by decide)
  ⟨h.1, h.2.1⟩

/-- C2: both the Withdraw and the Transfer orchestrators wrap the whole
single-attempt sequence (lock, mutate, record, persist, commit inside one
boundary, with the in-boundary validations) in a bounded retry loop run
with exactly 3 attempts: a successful attempt's result is returned; an
error other than ConcurrencyConflict propagates immediately from the
attempt in which it occurred; a ConcurrencyConflict makes the loop re-run
the entire single-attempt function in the next iteration against the
unchanged committed store (a fresh transactional boundary); and three
attempts all ending in ConcurrencyConflict make the operation fail with
ConcurrencyConflict. -/
theorem bounded_retry_protocol :
    (∀ w (n : AccountNumber) (amount : Money) w1 a k,
      WithdrawUseCase.single_attempt w n amount = (w1, .ok a) →
      WithdrawUseCase.execute_loop n amount (k + 1) w = (w1, .ok a)) ∧
    (∀ w (n : AccountNumber) (amount : Money) w1 e k,
      WithdrawUseCase.single_attempt w n amount = (w1, .error e) →
      e.isConcurrencyConflict = false →
      WithdrawUseCase.execute_loop n amount (k + 1) w = (w1, .error e)) ∧
    (∀ w (n : AccountNumber) (amount : Money) w1 e k,
      WithdrawUseCase.single_attempt w n amount = (w1, .error e) →
      e.isConcurrencyConflict = true →
      WithdrawUseCase.execute_loop n amount (k + 1) w =
        WithdrawUseCase.execute_loop n amount k w1 ∧ w1.store = w.store) ∧
    (∀ w (n : AccountNumber) (amount : Money) w1 w2 w3 e1 e2 e3,
      WithdrawUseCase.single_attempt w n amount = (w1, .error e1) →
      e1.isConcurrencyConflict = true →
      WithdrawUseCase.single_attempt w1 n amount = (w2, .error e2) →
      e2.isConcurrencyConflict = true →
      WithdrawUseCase.single_attempt w2 n amount = (w3, .error e3) →
      e3.isConcurrencyConflict = true →
      WithdrawUseCase.execute_loop n amount 3 w =
        (w3, .error (.concurrencyConflict "Withdraw failed after retries"))) ∧
    (∀ w cmd (n : AccountNumber) (amount : Money),
      AccountNumber.make cmd.account_number = .ok n →
      Money.make cmd.amount_cents cmd.currency = .ok amount →
      WithdrawUseCase.execute w cmd =
        match WithdrawUseCase.execute_loop n amount 3 w with
        | (w1, .error e) => (w1, .error e)
        | (w1, .ok account) =>
          (w1, .ok ⟨account.account_number.value, account.balance.amount_cents,
            account.balance.currency⟩)) ∧
    (∀ w (src dst : AccountNumber) (amount : Money) corr w1 r k,
      TransferUseCase.single_attempt w src dst amount corr = (w1, .ok r) →
      TransferUseCase.execute_loop src dst amount corr (k + 1) w = (w1, .ok r)) ∧
    (∀ w (src dst : AccountNumber) (amount : Money) corr w1 e k,
      TransferUseCase.single_attempt w src dst amount corr = (w1, .error e) →
      e.isConcurrencyConflict = false →
      TransferUseCase.execute_loop src dst amount corr (k + 1) w = (w1, .error e)) ∧
    (∀ w (src dst : AccountNumber) (amount : Money) corr w1 e k,
      TransferUseCase.single_attempt w src dst amount corr = (w1, .error e) →
      e.isConcurrencyConflict = true →
      TransferUseCase.execute_loop src dst amount corr (k + 1) w =
        TransferUseCase.execute_loop src dst amount corr k w1 ∧ w1.store = w.store) ∧
    (∀ w (src dst : AccountNumber) (amount : Money) corr w1 w2 w3 e1 e2 e3,
      TransferUseCase.single_attempt w src dst amount corr = (w1, .error e1) →
      e1.isConcurrencyConflict = true →
      TransferUseCase.single_attempt w1 src dst amount corr = (w2, .error e2) →
      e2.isConcurrencyConflict = true →
      TransferUseCase.single_attempt w2 src dst amount corr = (w3, .error e3) →
      e3.isConcurrencyConflict = true →
      TransferUseCase.execute_loop src dst amount corr 3 w =
        (w3, .error (.concurrencyConflict "Transfer failed after retries"))) ∧
    (∀ w cmd (src dst : AccountNumber) (amount : Money),
      AccountNumber.make cmd.from_account_number = .ok src →
      AccountNumber.make cmd.to_account_number = .ok dst →
      src.value ≠ dst.value →
      Money.make cmd.amount_cents cmd.currency = .ok amount →
      TransferUseCase.execute w cmd =
        match TransferUseCase.execute_loop src dst amount w.nextId 3
            { w with nextId := w.nextId + 1 } with
        | (w1, .error e) => (w1, .error e)
        | (w1, .ok (sA, dB)) =>
          (w1, .ok ⟨w.nextId, sA.account_number.value, dB.account_number.value,
            sA.balance.amount_cents, dB.balance.amount_cents, amount.currency⟩)) := by
  refine ⟨?_, ?_, ?_, ?_, ?_, ?_, ?_, ?_, ?_, ?_⟩
  · intro w n amount w1 a k h
    rw [withdraw_loop_succ, h]
  · intro w n amount w1 e k h hcc
    rw [withdraw_loop_succ, h]
    simp [hcc]
  · intro w n amount w1 e k h hcc
    refine ⟨?_, withdraw_single_attempt_error_store w n amount w1 e h⟩
    rw [withdraw_loop_succ, h]
    simp [hcc]
  · intro w n amount w1 w2 w3 e1 e2 e3 h1 hc1 h2 hc2 h3 hc3
    rw [withdraw_loop_succ, h1]
    simp only [hc1, if_true]
    rw [withdraw_loop_succ, h2]
    simp only [hc2, if_true]
    rw [withdraw_loop_succ, h3]
    simp only [hc3, if_true]
    exact withdraw_loop_zero n amount w3
  · intro w cmd n amount hn hm
    simp only [WithdrawUseCase.execute, hn, hm]
  · intro w src dst amount corr w1 r k h
    rw [transfer_loop_succ, h]
  · intro w src dst amount corr w1 e k h hcc
    rw [transfer_loop_succ, h]
    simp [hcc]
  · intro w src dst amount corr w1 e k h hcc
    refine ⟨?_, transfer_single_attempt_error_store w src dst amount corr w1 e h⟩
    rw [transfer_loop_succ, h]
    simp [hcc]
  · intro w src dst amount corr w1 w2 w3 e1 e2 e3 h1 hc1 h2 hc2 h3 hc3
    rw [transfer_loop_succ, h1]
    simp only [hc1, if_true]
    rw [transfer_loop_succ, h2]
    simp only [hc2, if_true]
    rw [transfer_loop_succ, h3]
    simp only [hc3, if_true]
    exact transfer_loop_zero src dst amount corr w3
  · intro w cmd src dst amount hsrc hdst hne hm
    simp only [TransferUseCase.execute, hsrc, hdst, hm, World.freshId]
    rw [if_neg hne]

/-- Witness for C2: with one injected conflict, the first withdraw attempt
fails with ConcurrencyConflict and the loop re-runs the remaining attempts
from the unchanged committed store. -/
theorem bounded_retry_protocol_witness :
    WithdrawUseCase.execute_loop ⟨"222222"⟩ ⟨2000, "BRL"⟩ 3 (sampleWorldConflicts 1) =
      WithdrawUseCase.execute_loop ⟨"222222"⟩ ⟨2000, "BRL"⟩ 2
        { sampleWorldConflicts 1 with
            trace := (sampleWorldConflicts 1).trace ++ ["222222"], conflicts := 0 } ∧
    ({ sampleWorldConflicts 1 with
        trace := (sampleWorldConflicts 1).trace ++ ["222222"], conflicts := 0 }).store =
      (sampleWorldConflicts 1).store :=
  bounded_retry_protocol.2.2.1 (sampleWorldConflicts 1) ⟨"222222"⟩ ⟨2000, "BRL"⟩ _ _ 2
    (withdraw_single_attempt_conflict (sampleWorldConflicts 1) ⟨"222222"⟩ ⟨2000, "BRL"⟩ 0 rfl)
    rfl

/-- C4: a successful Withdraw records exactly one WITHDRAWAL ledger entry
for the account (no correlation id, no counterparty); a successful
Transfer records exactly two entries — TRANSFER_OUT on the source carrying
the destination's account number as counterparty and TRANSFER_IN on the
destination carrying the source's account number — both carrying the one
correlation id drawn from the supply before the retry loop, so the same id
regardless of how many of the 3 attempts were consumed by conflicts (the
conclusion is uniform in the injected-conflict count c ≤ 2). -/
theorem ledger_recording_spec :
    (∀ (w : World) (cmd : WithdrawCommand) (n : AccountNumber) (amount : Money)
        (A : Account) (c : Nat),
      AccountNumber.make cmd.account_number = .ok n →
      Money.make cmd.amount_cents cmd.currency = .ok amount →
      w.conflicts = c → c ≤ 2 →
      w.store.accounts n.value = some A →
      amount.currency = A.balance.currency →
      amount.is_zero = false →
      amount.amount_cents ≤ A.balance.amount_cents →
      (WithdrawUseCase.execute w cmd).2 =
        .ok ⟨A.account_number.value, A.balance.amount_cents - amount.amount_cents,
          A.balance.currency⟩ ∧
      (WithdrawUseCase.execute w cmd).1.store.ledger =
        w.store.ledger ++
          [LedgerEntry.create w.nextId A.account_id .WITHDRAWAL amount none none w.now]) ∧
    (∀ (w : World) (cmd : TransferCommand) (src dst : AccountNumber) (amount : Money)
        (A B : Account) (c : Nat),
      AccountNumber.make cmd.from_account_number = .ok src →
      AccountNumber.make cmd.to_account_number = .ok dst →
      src.value ≠ dst.value →
      Money.make cmd.amount_cents cmd.currency = .ok amount →
      w.conflicts = c → c ≤ 2 →
      w.store.accounts src.value = some A → A.account_number.value = src.value →
      w.store.accounts dst.value = some B → B.account_number.value = dst.value →
      amount.currency = A.balance.currency →
      amount.currency = B.balance.currency →
      amount.is_zero = false →
      amount.amount_cents ≤ A.balance.amount_cents →
      (TransferUseCase.execute w cmd).2 =
        .ok ⟨w.nextId, A.account_number.value, B.account_number.value,
          A.balance.amount_cents - amount.amount_cents,
          B.balance.amount_cents + amount.amount_cents, amount.currency⟩ ∧
      (TransferUseCase.execute w cmd).1.store.ledger =
        w.store.ledger ++
          [LedgerEntry.create (w.nextId + 1) A.account_id .TRANSFER_OUT amount
            (some w.nextId) (some B.account_number) w.now,
           LedgerEntry.create (w.nextId + 2) B.account_id .TRANSFER_IN amount
            (some w.nextId) (some A.account_number) w.now]) := by
  constructor
  · intro w cmd n amount A c hn hm hc hcle hA hcur hz hle
    have ha1 := Account.withdraw_ok_eval A amount hcur hz hle
    interval_cases c
    · have hstep := withdraw_single_attempt_ok w n amount A _ hc hA ha1
      constructor
      all_goals simp only [WithdrawUseCase.execute, hn, hm]
      all_goals rw [withdraw_loop_succ, hstep]
      all_goals try exact rfl
    · have hstep := withdraw_single_attempt_ok
        { w with trace := w.trace ++ [n.value], conflicts := 0 } n amount A _ rfl hA ha1
      constructor
      all_goals simp only [WithdrawUseCase.execute, hn, hm]
      all_goals rw [withdraw_loop_step_conflict n amount w 0 2 hc, withdraw_loop_succ, hstep]
      all_goals try exact rfl
    · have hstep := withdraw_single_attempt_ok
        { { w with trace := w.trace ++ [n.value], conflicts := 1 } with
            trace := ({ w with trace := w.trace ++ [n.value], conflicts := 1 }).trace
              ++ [n.value]
            conflicts := 0 } n amount A _ rfl hA ha1
      constructor
      all_goals simp only [WithdrawUseCase.execute, hn, hm]
      all_goals rw [withdraw_loop_step_conflict n amount w 1 2 hc,
           withdraw_loop_step_conflict n amount
             { w with trace := w.trace ++ [n.value], conflicts := 1 } 0 1 rfl,
           withdraw_loop_succ, hstep]
      all_goals try exact rfl
  · intro w cmd src dst amount A B c hsrc hdst hne hm hc hcle hA hAn hB hBn
      hcurA hcurB hz hle
    have ha1 := Account.withdraw_ok_eval A amount hcurA hz hle
    have hb1 := Account.deposit_ok_eval B amount hcurB hz
    interval_cases c
    · have hstep := transfer_single_attempt_ok { w with nextId := w.nextId + 1 }
        src dst amount w.nextId A B _ _ hc hne hA hAn hB hBn ha1 hb1
      constructor
      all_goals simp only [TransferUseCase.execute, hsrc, hdst, hm, World.freshId]
      all_goals rw [if_neg hne, transfer_loop_succ, hstep]
      all_goals simp [Store.save_ledger, Store.ledger_save_ledger]
    · have hstep := transfer_single_attempt_ok
        { { w with nextId := w.nextId + 1 } with
            trace := ({ w with nextId := w.nextId + 1 }).trace
              ++ [(lowerNumber src dst).value]
            conflicts := 0 }
        src dst amount w.nextId A B _ _ rfl hne hA hAn hB hBn ha1 hb1
      constructor
      all_goals simp only [TransferUseCase.execute, hsrc, hdst, hm, World.freshId]
      all_goals rw [if_neg hne,
           transfer_loop_step_conflict src dst amount w.nextId
             { w with nextId := w.nextId + 1 } 0 2 hc,
           transfer_loop_succ, hstep]
      all_goals simp [Store.save_ledger, Store.ledger_save_ledger]
    · have hstep := transfer_single_attempt_ok
        ⟨((⟨(⟨w.store, w.conflicts, w.nextId + 1, w.now, w.trace⟩ : World).store, 1,
            (⟨w.store, w.conflicts, w.nextId + 1, w.now, w.trace⟩ : World).nextId,
            (⟨w.store, w.conflicts, w.nextId + 1, w.now, w.trace⟩ : World).now,
            (⟨w.store, w.conflicts, w.nextId + 1, w.now, w.trace⟩ : World).trace
              ++ [(lowerNumber src dst).value]⟩ : World)).store, 0,
          ((⟨(⟨w.store, w.conflicts, w.nextId + 1, w.now, w.trace⟩ : World).store, 1,
            (⟨w.store, w.conflicts, w.nextId + 1, w.now, w.trace⟩ : World).nextId,
            (⟨w.store, w.conflicts, w.nextId + 1, w.now, w.trace⟩ : World).now,
            (⟨w.store, w.conflicts, w.nextId + 1, w.now, w.trace⟩ : World).trace
              ++ [(lowerNumber src dst).value]⟩ : World)).nextId,
          ((⟨(⟨w.store, w.conflicts, w.nextId + 1, w.now, w.trace⟩ : World).store, 1,
            (⟨w.store, w.conflicts, w.nextId + 1, w.now, w.trace⟩ : World).nextId,
            (⟨w.store, w.conflicts, w.nextId + 1, w.now, w.trace⟩ : World).now,
            (⟨w.store, w.conflicts, w.nextId + 1, w.now, w.trace⟩ : World).trace
              ++ [(lowerNumber src dst).value]⟩ : World)).now,
          ((⟨(⟨w.store, w.conflicts, w.nextId + 1, w.now, w.trace⟩ : World).store, 1,
            (⟨w.store, w.conflicts, w.nextId + 1, w.now, w.trace⟩ : World).nextId,
            (⟨w.store, w.conflicts, w.nextId + 1, w.now, w.trace⟩ : World).now,
            (⟨w.store, w.conflicts, w.nextId + 1, w.now, w.trace⟩ : World).trace
              ++ [(lowerNumber src dst).value]⟩ : World)).trace
            ++ [(lowerNumber src dst).value]⟩
        src dst amount w.nextId A B _ _ rfl hne hA hAn hB hBn ha1 hb1
      constructor
      all_goals simp only [TransferUseCase.execute, hsrc, hdst, hm, World.freshId]
      all_goals rw [if_neg hne,
           transfer_loop_step_conflict src dst amount w.nextId
             ⟨w.store, w.conflicts, w.nextId + 1, w.now, w.trace⟩ 1 2 hc,
           transfer_loop_step_conflict src dst amount w.nextId
             ⟨(⟨w.store, w.conflicts, w.nextId + 1, w.now, w.trace⟩ : World).store, 1,
              (⟨w.store, w.conflicts, w.nextId + 1, w.now, w.trace⟩ : World).nextId,
              (⟨w.store, w.conflicts, w.nextId + 1, w.now, w.trace⟩ : World).now,
              (⟨w.store, w.conflicts, w.nextId + 1, w.now, w.trace⟩ : World).trace
                ++ [(lowerNumber src dst).value]⟩ 0 1 rfl,
           transfer_loop_succ, hstep]
      all_goals simp [Store.save_ledger, Store.ledger_save_ledger]

/-- Witness for C4: with one injected conflict absorbed by a retry, the
transfer records the TRANSFER_OUT/TRANSFER_IN pair with the pre-loop
correlation id 10 and the two counterparty numbers. -/
theorem ledger_recording_spec_witness :
    (TransferUseCase.execute (sampleWorldConflicts 1) sampleTransferCmd).2 =
      .ok ⟨10, "222222", "111111", 3000, 2000, "BRL"⟩ ∧
    (TransferUseCase.execute (sampleWorldConflicts 1) sampleTransferCmd).1.store.ledger =
      [LedgerEntry.create 11 1 .TRANSFER_OUT ⟨2000, "BRL"⟩ (some 10)
        (some ⟨"111111"⟩) 99,
       LedgerEntry.create 12 2 .TRANSFER_IN ⟨2000, "BRL"⟩ (some 10)
        (some ⟨"222222"⟩) 99] :=
  ledger_recording_spec.2 (sampleWorldConflicts 1) sampleTransferCmd
    ⟨"222222"⟩ ⟨"111111"⟩ ⟨2000, "BRL"⟩
    ⟨1, ⟨"222222"⟩, ⟨5000, "BRL"⟩⟩ ⟨2, ⟨"111111"⟩, ⟨0, "BRL"⟩⟩ 1
    (by decide) (by decide) (by decide) (by decide) rfl (by decide)
    (by decide) rfl (by decide) rfl rfl rfl (by decide) (by decide)

/-- C10: every ledger entry appended by a successful CreateAccount (its
optional initial deposit), Withdraw, or Transfer execution has a strictly
positive amount — each use case rejects zero amounts before recording —
even though `LedgerEntry.create` itself performs no positivity validation
and accepts a zero-amount Money without error (first conjunct). -/
theorem ledger_entries_positive :
    (∀ (eid aid : Nat) (ty : LedgerEntryType) (cur : String) (corr : Option Nat)
        (cp : Option AccountNumber) (t : Nat),
      (LedgerEntry.create eid aid ty ⟨0, cur⟩ corr cp t).amount.amount_cents = 0) ∧
    (∀ w cmd w1 r, CreateAccountUseCase.execute w cmd = (w1, .ok r) →
      ∀ e ∈ w1.store.ledger, e ∈ w.store.ledger ∨ 0 < e.amount.amount_cents) ∧
    (∀ w cmd w1 r, WithdrawUseCase.execute w cmd = (w1, .ok r) →
      ∀ e ∈ w1.store.ledger, e ∈ w.store.ledger ∨ 0 < e.amount.amount_cents) ∧
    (∀ w cmd w1 r, TransferUseCase.execute w cmd = (w1, .ok r) →
      ∀ e ∈ w1.store.ledger, e ∈ w.store.ledger ∨ 0 < e.amount.amount_cents) := by
  refine ⟨fun eid aid ty cur corr cp t => rfl, ?_, ?_, ?_⟩
  · intro w cmd w1 r h e he
    simp only [CreateAccountUseCase.execute] at h
    rcases hn : AccountNumber.make cmd.account_number with e1 | n <;> rw [hn] at h
    · simp at h
    · simp only at h
      rcases hm : Money.make cmd.initial_balance_cents cmd.currency with e2 | m <;>
        rw [hm] at h
      · simp at h
      · simp only at h
        rcases hg : w.store.get_by_number n with _ | A <;> rw [hg] at h
        · simp only [World.freshId] at h
          rcases hz0 : Money.zero cmd.currency with e3 | z <;> rw [hz0] at h
          · simp at h
          · simp only at h
            by_cases hz : m.is_zero = true
            · rw [if_pos hz] at h
              cases h
              exact Or.inl (by simpa [Store.save_ledger] using he)
            · rw [if_neg hz] at h
              rcases hd : (⟨w.nextId, n, z⟩ : Account).deposit m with e4 | acc1 <;>
                rw [hd] at h
              · simp at h
              · simp only [World.freshId] at h
                cases h
                simp only [Store.save_ledger, Store.ledger_save_ledger] at he
                rcases List.mem_append.mp he with h1 | h2
                · exact Or.inl h1
                · right
                  rw [List.mem_singleton.mp h2]
                  have hmk := Money.make_ok hm
                  have hne0 : m.amount_cents ≠ 0 :=
                    Money.is_zero_false_ne (by simpa using hz)
                  have h01 := hmk.1
                  have h02 := hmk.2.2.1
                  show 0 < m.amount_cents
                  omega
        · simp at h
  · intro w cmd w1 r h e he
    simp only [WithdrawUseCase.execute] at h
    rcases hn : AccountNumber.make cmd.account_number with e1 | n <;> rw [hn] at h
    · simp at h
    · simp only at h
      rcases hm : Money.make cmd.amount_cents cmd.currency with e2 | amount <;>
        rw [hm] at h
      · simp at h
      · simp only at h
        rcases hloop : WithdrawUseCase.execute_loop n amount 3 w with ⟨w2, rr⟩
        rw [hloop] at h
        rcases rr with e3 | acc <;> simp only at h
        · simp at h
        · cases h
          have hl := withdraw_loop_ok_ledger n amount 3 w w1 acc hloop
          rcases hl.1 e he with h1 | h2
          · exact Or.inl h1
          · right
            have hmk := Money.make_ok hm
            have hne0 := Money.is_zero_false_ne hl.2
            have h01 := hmk.1
            have h02 := hmk.2.2.1
            rw [h2]
            omega
  · intro w cmd w1 r h e he
    simp only [TransferUseCase.execute] at h
    rcases hs : AccountNumber.make cmd.from_account_number with e1 | src <;> rw [hs] at h
    · simp at h
    · simp only at h
      rcases hd2 : AccountNumber.make cmd.to_account_number with e2 | dst <;> rw [hd2] at h
      · simp at h
      · simp only at h
        by_cases hne : src.value = dst.value
        · rw [if_pos hne] at h
          simp at h
        · rw [if_neg hne] at h
          rcases hm : Money.make cmd.amount_cents cmd.currency with e3 | amount <;>
            rw [hm] at h
          · simp at h
          · simp only [World.freshId] at h
            rcases hloop : TransferUseCase.execute_loop src dst amount w.nextId 3
                ⟨w.store, w.conflicts, w.nextId + 1, w.now, w.trace⟩ with ⟨w2, rr⟩
            rw [hloop] at h
            rcases rr with e4 | ⟨sA, dB⟩ <;> simp only at h
            · simp at h
            · cases h
              have hl := transfer_loop_ok_ledger src dst amount w.nextId 3
                ⟨w.store, w.conflicts, w.nextId + 1, w.now, w.trace⟩ w1 (sA, dB) hloop
              rcases hl.1 e he with h1 | h2
              · exact Or.inl h1
              · right
                have hmk := Money.make_ok hm
                have hne0 := Money.is_zero_false_ne hl.2
                have h01 := hmk.1
                have h02 := hmk.2.2.1
                rw [h2]
                omega

/-- Witness for C10: the DEPOSIT entry recorded by creating account
"333333" with an initial deposit of 1500 is positive. -/
theorem ledger_entries_positive_witness :
    LedgerEntry.create 11 10 .DEPOSIT ⟨1500, "BRL"⟩ none none 99 ∈
        sampleWorld.store.ledger ∨
      0 < (LedgerEntry.create 11 10 .DEPOSIT ⟨1500, "BRL"⟩ none none
        99).amount.amount_cents :=
  ledger_entries_positive.2.1 sampleWorld sampleCreateCmd
    (CreateAccountUseCase.execute sampleWorld sampleCreateCmd).1
    ⟨10, "333333", 1500, "BRL"⟩ rfl
    (LedgerEntry.create 11 10 .DEPOSIT ⟨1500, "BRL"⟩ none none 99)
    (by decide)

end Zkybank
